import Mathlib

/-!
# geo_lab: skeletal hand animation

A shallow embedding of the vertex stage of `SkeletalAnimation::vertex_shader_330`
(src/main.cpp), of the per-frame pose update of `main` (src/main.cpp), of the pose
composer it calls, and of `TextureImage::Texture` (src/texture_image.h).

Floating-point numbers are read as exact rationals: every statement below is a
statement about the arithmetic the code writes down, not about rounding.
-/

namespace SkeletalAnimation

/-! ## GLSL values -/

/-- GLSL `mat4`, entry `M i j` being row `i`, column `j`. -/
abbrev Mat4 := Matrix (Fin 4) (Fin 4) ℚ

/-- GLSL `vec4`. -/
abbrev Vec4 := Fin 4 → ℚ

/-- GLSL `vec3`. -/
abbrev Vec3 := Fin 3 → ℚ

/-- GLSL `vec2`. -/
abbrev Vec2 := Fin 2 → ℚ

/-- Source: `const int MAX_BONES = 100;` -/
def MAX_BONES : Nat := 100

/-- GLSL constructor `vec4(v, w)` from a `vec3` and a scalar. -/
def vec4 (v : Vec3) (w : ℚ) : Vec4 := ![v 0, v 1, v 2, w]

/-- GLSL `mat4 * float`: every component is multiplied by the scalar. -/
def matTimes (M : Mat4) (s : ℚ) : Mat4 := fun i j => M i j * s

/-- GLSL `mat4 / float`: every component is divided by the scalar. -/
def matOver (M : Mat4) (s : ℚ) : Mat4 := fun i j => M i j / s

/-- The per-vertex inputs (`layout(location = ...) in`). -/
structure VertexIn where
  in_position : Vec3
  in_texcoord : Vec2
  in_normal : Vec3
  in_bone_index : Fin 4 → Int
  in_bone_weight : Fin 4 → ℚ

/-- The uniforms of the vertex stage.  `u_bone_transf` is the array read
`u_bone_transf[k]`; a read outside `0 .. MAX_BONES - 1` yields whatever the
function supplies there. -/
structure Uniforms where
  u_bone_transf : Int → Mat4
  u_mvp : Mat4

/-- The outputs of the vertex stage. -/
structure VertexOut where
  gl_Position : Vec4
  pass_texcoord : Vec2

/-- The four iterations `i = 0, 1, 2, 3` of the shader's `for` loops. -/
def loop4 : List (Fin 4) := [0, 1, 2, 3]

/-- Source: `float adjust_factor = 0.0; for (i...) adjust_factor += in_bone_weight[i] * 0.25;` -/
def adjust_factor (w : Fin 4 → ℚ) : ℚ :=
  loop4.foldl (fun acc i => acc + w i * 0.25) 0.0

/-- The state of the blending loop: the matrix accumulated so far and, as a ghost
field, the divisor of every division executed so far. -/
structure Blend where
  bone_transform : Mat4
  divisors : List ℚ

/-- One iteration of
`bone_transform += u_bone_transf[in_bone_index[i]] * in_bone_weight[i] / adjust_factor;`
(`*` and `/` associate to the left). -/
def blendStep (u : Uniforms) (a : VertexIn) (af : ℚ) (st : Blend) (i : Fin 4) : Blend :=
  { bone_transform :=
      st.bone_transform +
        matOver (matTimes (u.u_bone_transf (a.in_bone_index i)) (a.in_bone_weight i)) af
    divisors := st.divisors ++ [af] }

/-- Lines 40-47 of the shader: the blended bone transform, with the divisors used. -/
def blend (u : Uniforms) (a : VertexIn) : Blend :=
  let af := adjust_factor a.in_bone_weight
  let bone_transform : Mat4 := 1
  if af > 1e-3 then
    loop4.foldl (blendStep u a af) { bone_transform := bone_transform - bone_transform, divisors := [] }
  else
    { bone_transform := bone_transform, divisors := [] }

/-- The value of the shader variable `bone_transform` at line 48. -/
def bone_transform (u : Uniforms) (a : VertexIn) : Mat4 := (blend u a).bone_transform

/-- Source: `void main()` of `vertex_shader_330`. -/
def main (u : Uniforms) (a : VertexIn) : VertexOut :=
  { gl_Position := Matrix.mulVec (u.u_mvp * bone_transform u a) (vec4 a.in_position 1.0)
    pass_texcoord := a.in_texcoord }

/-- The sum of the four bone weights of a vertex. -/
def weightSum (w : Fin 4 → ℚ) : ℚ := w 0 + w 1 + w 2 + w 3

/-- The blend the specification describes: each referenced bone matrix scaled by
`weight_i / weightSum`. -/
def normalizedBlend (u : Uniforms) (a : VertexIn) : Mat4 :=
  ∑ i : Fin 4, (a.in_bone_weight i / weightSum a.in_bone_weight) • u.u_bone_transf (a.in_bone_index i)

/-- Example uniforms: bone `k` carries the matrix `(k + 1) * identity`. -/
def sampleUniforms : Uniforms :=
  { u_bone_transf := fun k => ((k : ℚ) + 1) • (1 : Mat4)
    u_mvp := 1 }

/-- Example vertex: weights (0.3, 0.3, 0.3, 0.0) on bones (0, 1, 2, 3). -/
def sampleVertex : VertexIn :=
  { in_position := ![1, 2, 3]
    in_texcoord := ![0, 0]
    in_normal := ![0, 0, 1]
    in_bone_index := ![0, 1, 2, 3]
    in_bone_weight := ![0.3, 0.3, 0.3, 0.0] }

/-- Example vertex whose weights sum to 0.002 (above 1e-3, a quarter of it below), the
only influence being bone 3. -/
def faintVertex : VertexIn :=
  { sampleVertex with in_bone_index := ![3, 2, 1, 0], in_bone_weight := ![0.002, 0, 0, 0] }

/-- Example vertex with all-zero weights. -/
def unskinnedVertex : VertexIn :=
  { sampleVertex with in_bone_weight := ![0, 0, 0, 0] }

/-- An affine matrix: its last row is (0, 0, 0, 1). -/
def IsAffine (M : Mat4) : Prop := M 3 0 = 0 ∧ M 3 1 = 0 ∧ M 3 2 = 0 ∧ M 3 3 = 1

/-- Two homogeneous vectors denote the same projective point: one is a non-zero multiple
of the other. -/
def SameProjectivePoint (x y : Vec4) : Prop := ∃ c : ℚ, c ≠ 0 ∧ x = c • y

/-- The vertex `a` with every bone weight multiplied by `k`. -/
def scaleWeights (k : ℚ) (a : VertexIn) : VertexIn :=
  { a with in_bone_weight := fun i => k * a.in_bone_weight i }

/-- Example uniforms with affine bone matrices: bone `k` translates by `(k, 1, 0)`; the
view-projection matrix copies `z` into `w`. -/
def affineUniforms : Uniforms :=
  { u_bone_transf := fun k => !![1, 0, 0, (k : ℚ); 0, 1, 0, 1; 0, 0, 1, 0; 0, 0, 0, 1]
    u_mvp := !![1, 0, 0, 0; 0, 1, 0, 0; 0, 0, 1, 0; 0, 0, 1, 0] }

end SkeletalAnimation

namespace SkeletalMesh

open SkeletalAnimation (Mat4 Vec3)

/-- Modelled from the spec: `SkeletalMesh::SkeletonModifier` is declared in
skeletal_mesh.h, which is not among the sources.  Spec §3 "Modifier Map": a mapping
from bone name to a 4x4 local transform. -/
abbrev SkeletonModifier := String → Option Mat4

namespace SkeletonModifier

/-- The map without entries. -/
def empty : SkeletonModifier := fun _ => none

/-- Source: `modifier[boneName] = localTransform;` -/
def set (m : SkeletonModifier) (boneName : String) (localTransform : Mat4) : SkeletonModifier :=
  fun k => if k = boneName then some localTransform else m k

/-- Modelled from the spec: §4.2 `get(boneName)`, an absent key resolves to identity. -/
def get (m : SkeletonModifier) (boneName : String) : Mat4 := (m boneName).getD 1

/-- The map with the entry of `boneName`, if any, removed. -/
def erase (m : SkeletonModifier) (boneName : String) : SkeletonModifier :=
  fun k => if k = boneName then none else m k

end SkeletonModifier

/-- Modelled from the spec: the bone record of skeletal_mesh.h is not among the sources.
Spec §3 "Bone": name, parent index (-1 for root), bind-pose local transform, cached
inverse bind transform; the integer index of a bone is its position in the store. -/
structure Bone where
  name : String
  parent : Int
  bindLocal : Mat4
  inverseBind : Mat4

/-- Modelled from the spec: §3 "Hierarchy Store", the ordered sequence of bones
(order = index order). -/
abbrev HierarchyStore := List Bone

/-- Modelled from the spec: part of the absent `Scene::getSkeletonTransform`.  The
world transform of the parent of `b`, read from the world transforms of the
bones already traversed; the parent world transform of a root is the identity
(spec §4.3). -/
def parentWorld (worlds : List Mat4) (b : Bone) : Mat4 :=
  if b.parent < 0 then 1 else worlds.getD b.parent.toNat 1

/-- Modelled from the spec: part of the absent `Scene::getSkeletonTransform`.  Spec
§4.3: the world transform of a bone = parent's world transform x override local
transform.  The override local transform is the bone's bind-pose local transform with the
entry of the Modifier Map applied on top of it (spec §3: "identity = bind pose"; glossary:
a modifier is "applied on top of bind pose"), identity if absent: the reading under which
the bind-pose and three-bone-chain properties of spec §8 hold. -/
def boneWorld (m : SkeletonModifier) (worlds : List Mat4) (b : Bone) : Mat4 :=
  parentWorld worlds b * (b.bindLocal * m.get b.name)

/-- Modelled from the spec: part of the absent `Scene::getSkeletonTransform`.  The
single top-down pass of spec §4.3 over the bones not yet traversed, `worlds`
holding the world transforms of those already traversed. -/
def composeWorlds (m : SkeletonModifier) : List Bone → List Mat4 → List Mat4
  | [], worlds => worlds
  | b :: rest, worlds => composeWorlds m rest (worlds ++ [boneWorld m worlds b])

/-- Modelled from the spec: `Scene::getSkeletonTransform` (skeletal_mesh.h) is not among
the sources.  Spec §4.3 `compose(HierarchyStore, ModifierMap)`: one skinning matrix per
bone, in bone index order, each = world transform x inverse bind-pose transform. -/
def compose (h : HierarchyStore) (m : SkeletonModifier) : List Mat4 :=
  List.zipWith (fun W b => W * b.inverseBind) (composeWorlds m h []) h

/-- The bind-pose world transform of bone `i`, followed along the parent links for at
most `fuel` bones: the product of the bind-pose local transforms from the root down
to the bone. -/
def bindWorld (h : HierarchyStore) : Nat → Nat → Mat4
  | 0, _ => 1
  | fuel + 1, i =>
    match h.get? i with
    | none => 1
    | some b => (if b.parent < 0 then 1 else bindWorld h fuel b.parent.toNat) * b.bindLocal

/-- Spec §3: every bone except a root has a parent that precedes it in index order. -/
def ParentsPrecede (h : HierarchyStore) : Prop :=
  ∀ i b, h.get? i = some b → b.parent = -1 ∨ (0 ≤ b.parent ∧ b.parent.toNat < i)

/-- Boolean test of `ParentsPrecede`, bone by bone. -/
def parentsPrecede (h : HierarchyStore) : Bool :=
  (List.range h.length).all fun i =>
    match h.get? i with
    | none => true
    | some b => b.parent == -1 || (decide (0 ≤ b.parent) && decide (b.parent.toNat < i))

/-- Spec §1, §3 "bind-pose correctness": the cached inverse bind transform of every bone
inverts its bind-pose world transform. -/
def BindPoseCorrect (h : HierarchyStore) : Prop :=
  ∀ i b, h.get? i = some b → bindWorld h h.length i * b.inverseBind = 1

/-- A valid hierarchy: hierarchy consistency and bind-pose correctness (spec §1, §3). -/
def Valid (h : HierarchyStore) : Prop := ParentsPrecede h ∧ BindPoseCorrect h

/-- Modelled from the spec: `SkeletalMesh::Scene` (skeletal_mesh.h) is not among the
sources.  The scene `main` holds is the sentinel `Scene::error` or a loaded hierarchy
(spec §7(a)). -/
inductive Scene where
  | error
  | loaded (h : HierarchyStore)

/-- Modelled from the spec: `Scene::loadScene` (skeletal_mesh.h) is not among the
sources.  Spec §4.1, §7(a): a hierarchy with a dangling or non-preceding parent index,
without a root, or with more bones than the maximum bone count is refused at load time
and the caller receives the sentinel. -/
def loadScene (asset : List Bone) : Scene :=
  if asset.length ≤ SkeletalAnimation.MAX_BONES ∧ parentsPrecede asset = true ∧
      asset.any (fun b => b.parent == -1) = true then
    Scene.loaded asset
  else
    Scene.error

/-- Modelled from the spec: `Scene::getSkeletonTransform` (skeletal_mesh.h) is not among
the sources.  The array `sr.getSkeletonTransform(bonesTransf, modifier)` leaves in
`bonesTransf`, which `main` declares empty just before: the composition of spec §4.3 for a
loaded scene; the sentinel scene holds no store (spec §7(a)) and leaves it empty. -/
def Scene.getSkeletonTransform (sr : Scene) (modifier : SkeletonModifier) : List Mat4 :=
  match sr with
  | Scene.error => []
  | Scene.loaded h => compose h modifier

/-- Lines 906-910 of `main`: the matrix count passed to
`glUniformMatrix4fv(u_bone_transf, bonesTransf.size(), ...)`, or `none` when the guard
`!bonesTransf.empty()` skips the upload. -/
def uploadCount (sr : Scene) (modifier : SkeletonModifier) : Option Nat :=
  let bonesTransf := sr.getSkeletonTransform modifier
  if !bonesTransf.isEmpty then some bonesTransf.length else none

/-- The translation by `(x, y, z)`. -/
def translate (x y z : ℚ) : Mat4 := !![1, 0, 0, x; 0, 1, 0, y; 0, 0, 1, z; 0, 0, 0, 1]

/-- The rotation by a quarter turn about the Z axis. -/
def quarterTurnZ : Mat4 := !![0, -1, 0, 0; 1, 0, 0, 0; 0, 0, 1, 0; 0, 0, 0, 1]

/-- Example hierarchy of five bones, a palm and one finger, each bone translated from its
parent; the inverse bind transforms undo the accumulated translations. -/
def sampleHand : HierarchyStore :=
  [ { name := "metacarpals", parent := -1,
      bindLocal := translate 0 1 0, inverseBind := translate 0 (-1) 0 },
    { name := "index_proximal_phalange", parent := 0,
      bindLocal := translate 1 0 0, inverseBind := translate (-1) (-1) 0 },
    { name := "index_intermediate_phalange", parent := 1,
      bindLocal := translate 2 0 0, inverseBind := translate (-3) (-1) 0 },
    { name := "index_distal_phalange", parent := 2,
      bindLocal := translate 1 0 0, inverseBind := translate (-4) (-1) 0 },
    { name := "index_fingertip", parent := 3,
      bindLocal := translate 1 0 0, inverseBind := translate (-5) (-1) 0 } ]

/-- Example modifier map: one entry for a bone of `sampleHand`, one for a name that is
not a bone of it. -/
def sampleModifier : SkeletonModifier :=
  (SkeletonModifier.empty.set "index_proximal_phalange" quarterTurnZ).set "elbow" quarterTurnZ

/-- Example asset of 101 bones, all roots. -/
def crowdedAsset : List Bone :=
  List.replicate 101 { name := "bone", parent := -1, bindLocal := 1, inverseBind := 1 }

end SkeletalMesh

namespace Hand

open SkeletalAnimation (Mat4 Vec3)
open SkeletalMesh (SkeletonModifier)

/-- The fallback definition of the macro `M_PI` (line 12): 3.1415926535897932. -/
def M_PI : ℚ := 3.1415926535897932

/-- The library functions the pose update calls and the sources do not define:
`glm::rotate(m, angle, axis)`, `sin`, `fmod`, `abs`. -/
structure Lib where
  rotate : Mat4 → ℚ → Vec3 → Mat4
  sin : ℚ → ℚ
  fmod : ℚ → ℚ → ℚ
  abs : ℚ → ℚ

/-- Source: `glm::identity<glm::mat4>()` -/
def identity : Mat4 := 1

/-- Source: `glm::fvec3(x, y, z)` -/
def fvec3 (x y z : ℚ) : Vec3 := ![x, y, z]

/-- Source: `float angle_90 = M_PI / 2.0f;` -/
def angle_90 : ℚ := M_PI / 2.0

/-- Source: `float angle_72 = M_PI / 2.5f;` -/
def angle_72 : ℚ := M_PI / 2.5

/-- Source: `float angle_60 = M_PI / 3.0f;` -/
def angle_60 : ℚ := M_PI / 3.0

/-- Source: `float angle_45 = M_PI / 4.0f;` -/
def angle_45 : ℚ := M_PI / 4.0

/-- Source: `float angle_30 = M_PI / 6.0f;` -/
def angle_30 : ℚ := M_PI / 6.0

/-- Source: `float angle_10 = M_PI / 18.0f;` -/
def angle_10 : ℚ := M_PI / 18.0

/-- Source: `static void resetFingers(SkeletalMesh::SkeletonModifier &modifier)` (lines 274-295). -/
def resetFingers  (modifier : SkeletonModifier) : SkeletonModifier :=
  let modifier := modifier.set "index_proximal_phalange" identity
  let modifier := modifier.set "index_intermediate_phalange" identity
  let modifier := modifier.set "index_distal_phalange" identity
  let modifier := modifier.set "middle_proximal_phalange" identity
  let modifier := modifier.set "middle_intermediate_phalange" identity
  let modifier := modifier.set "middle_distal_phalange" identity
  let modifier := modifier.set "ring_proximal_phalange" identity
  let modifier := modifier.set "ring_intermediate_phalange" identity
  let modifier := modifier.set "ring_distal_phalange" identity
  let modifier := modifier.set "pinky_proximal_phalange" identity
  let modifier := modifier.set "pinky_intermediate_phalange" identity
  let modifier := modifier.set "pinky_distal_phalange" identity
  let modifier := modifier.set "thumb_proximal_phalange" identity
  let modifier := modifier.set "thumb_intermediate_phalange" identity
  let modifier := modifier.set "thumb_distal_phalange" identity
  modifier

/-- The block guarded by `current_action == 10` (lines 525-569): the fingers bend one after
another. -/
def action10 (lib : Lib) (passed_time : ℚ) (modifier : SkeletonModifier) : SkeletonModifier :=
  let period : ℚ := 2.4
  let delay_step : ℚ := 0.5
  let time_index := passed_time
  let time_in_period_index := lib.fmod time_index period
  let angle_index := lib.abs (time_in_period_index / (period * 0.5) - 1.0) * (M_PI / 3.0)
  let modifier := modifier.set "index_proximal_phalange" (lib.rotate identity angle_index (fvec3 0.0 0.0 1.0))
  let time_middle := passed_time - delay_step
  let modifier :=
    if time_middle > 0 then
      let time_in_period_middle := lib.fmod time_middle period
      let angle_middle := lib.abs (time_in_period_middle / (period * 0.5) - 1.0) * (M_PI / 3.0)
      modifier.set "middle_proximal_phalange" (lib.rotate identity angle_middle (fvec3 0.0 0.0 1.0))
    else modifier
  let time_ring := passed_time - 2 * delay_step
  let modifier :=
    if time_ring > 0 then
      let time_in_period_ring := lib.fmod time_ring period
      let angle_ring := lib.abs (time_in_period_ring / (period * 0.5) - 1.0) * (M_PI / 3.0)
      modifier.set "ring_proximal_phalange" (lib.rotate identity angle_ring (fvec3 0.0 0.0 1.0))
    else modifier
  let time_pinky := passed_time - 3 * delay_step
  let modifier :=
    if time_pinky > 0 then
      let time_in_period_pinky := lib.fmod time_pinky period
      let angle_pinky := lib.abs (time_in_period_pinky / (period * 0.5) - 1.0) * (M_PI / 3.0)
      modifier.set "pinky_proximal_phalange" (lib.rotate identity angle_pinky (fvec3 0.0 0.0 1.0))
    else modifier
  let time_thumb := passed_time - 4 * delay_step
  let modifier :=
    if time_thumb > 0 then
      let time_in_period_thumb := lib.fmod time_thumb period
      let angle_thumb := lib.abs (time_in_period_thumb / (period * 0.5) - 1.0) * (M_PI / 3.0)
      modifier.set "thumb_proximal_phalange" (lib.rotate identity angle_thumb (fvec3 0.0 1.0 0.0))
    else modifier
  modifier

/-- The block guarded by `current_action == 0` (lines 573-591). -/
def action0 (lib : Lib) (modifier : SkeletonModifier) : SkeletonModifier :=
  let modifier := modifier.set "thumb_proximal_phalange" (lib.rotate identity angle_30 (fvec3 0.0 0.0 1.0))
  let modifier := modifier.set "thumb_intermediate_phalange" (lib.rotate identity angle_10 (fvec3 0.0 0.0 1.0))
  let modifier := modifier.set "index_proximal_phalange" (lib.rotate identity angle_60 (fvec3 0.0 0.0 1.0))
  let modifier := modifier.set "index_intermediate_phalange" (lib.rotate identity angle_45 (fvec3 0.0 0.0 1.0))
  let modifier := modifier.set "index_distal_phalange" identity
  let modifier := modifier.set "middle_proximal_phalange" (lib.rotate identity angle_90 (fvec3 0.0 0.0 1.0))
  let modifier := modifier.set "middle_intermediate_phalange" (lib.rotate identity angle_90 (fvec3 0.0 0.0 1.0))
  let modifier := modifier.set "ring_proximal_phalange" (lib.rotate identity angle_90 (fvec3 0.0 0.0 1.0))
  let modifier := modifier.set "ring_intermediate_phalange" (lib.rotate identity angle_90 (fvec3 0.0 0.0 1.0))
  let modifier := modifier.set "pinky_proximal_phalange" (lib.rotate identity angle_90 (fvec3 0.0 0.0 1.0))
  let modifier := modifier.set "pinky_intermediate_phalange" (lib.rotate identity angle_90 (fvec3 0.0 0.0 1.0))
  modifier

/-- The block guarded by `current_action == 1` (lines 593-612). -/
def action1 (lib : Lib) (modifier : SkeletonModifier) : SkeletonModifier :=
  let modifier := modifier.set "thumb_proximal_phalange" (lib.rotate identity angle_45 (fvec3 0.0 0.0 1.0))
  let modifier := modifier.set "thumb_distal_phalange" (lib.rotate identity angle_30 (fvec3 0.0 0.0 1.0))
  let modifier := modifier.set "thumb_intermediate_phalange" (lib.rotate identity angle_30 (fvec3 0.0 0.0 1.0))
  let modifier := modifier.set "index_proximal_phalange" identity
  let modifier := modifier.set "index_intermediate_phalange" identity
  let modifier := modifier.set "index_distal_phalange" identity
  let modifier := modifier.set "middle_proximal_phalange" (lib.rotate identity angle_90 (fvec3 0.0 0.0 1.0))
  let modifier := modifier.set "middle_intermediate_phalange" (lib.rotate identity angle_90 (fvec3 0.0 0.0 1.0))
  let modifier := modifier.set "ring_proximal_phalange" (lib.rotate identity angle_90 (fvec3 0.0 0.0 1.0))
  let modifier := modifier.set "ring_intermediate_phalange" (lib.rotate identity angle_90 (fvec3 0.0 0.0 1.0))
  let modifier := modifier.set "pinky_proximal_phalange" (lib.rotate identity angle_90 (fvec3 0.0 0.0 1.0))
  let modifier := modifier.set "pinky_intermediate_phalange" (lib.rotate identity angle_90 (fvec3 0.0 0.0 1.0))
  modifier

/-- The block guarded by `current_action == 2` (lines 614-633). -/
def action2 (lib : Lib) (modifier : SkeletonModifier) : SkeletonModifier :=
  let modifier := modifier.set "thumb_proximal_phalange" (lib.rotate identity angle_45 (fvec3 0.0 0.0 1.0))
  let modifier := modifier.set "thumb_distal_phalange" (lib.rotate identity angle_30 (fvec3 0.0 0.0 1.0))
  let modifier := modifier.set "thumb_intermediate_phalange" (lib.rotate identity angle_30 (fvec3 0.0 0.0 1.0))
  let modifier := modifier.set "index_proximal_phalange" identity
  let modifier := modifier.set "index_intermediate_phalange" identity
  let modifier := modifier.set "index_distal_phalange" identity
  let modifier := modifier.set "middle_proximal_phalange" identity
  let modifier := modifier.set "middle_intermediate_phalange" identity
  let modifier := modifier.set "ring_proximal_phalange" (lib.rotate identity angle_90 (fvec3 0.0 0.0 1.0))
  let modifier := modifier.set "ring_intermediate_phalange" (lib.rotate identity angle_90 (fvec3 0.0 0.0 1.0))
  let modifier := modifier.set "pinky_proximal_phalange" (lib.rotate identity angle_90 (fvec3 0.0 0.0 1.0))
  let modifier := modifier.set "pinky_intermediate_phalange" (lib.rotate identity angle_90 (fvec3 0.0 0.0 1.0))
  modifier

/-- The block guarded by `current_action == 3` (lines 635-654). -/
def action3 (lib : Lib) (modifier : SkeletonModifier) : SkeletonModifier :=
  let modifier := modifier.set "thumb_proximal_phalange" (lib.rotate identity angle_45 (fvec3 0.0 0.0 1.0))
  let modifier := modifier.set "thumb_distal_phalange" (lib.rotate identity angle_30 (fvec3 0.0 0.0 1.0))
  let modifier := modifier.set "thumb_intermediate_phalange" (lib.rotate identity angle_30 (fvec3 0.0 0.0 1.0))
  let modifier := modifier.set "index_proximal_phalange" identity
  let modifier := modifier.set "index_intermediate_phalange" identity
  let modifier := modifier.set "index_distal_phalange" identity
  let modifier := modifier.set "middle_proximal_phalange" identity
  let modifier := modifier.set "middle_intermediate_phalange" identity
  let modifier := modifier.set "ring_proximal_phalange" identity
  let modifier := modifier.set "ring_intermediate_phalange" identity
  let modifier := modifier.set "pinky_proximal_phalange" (lib.rotate identity angle_90 (fvec3 0.0 0.0 1.0))
  let modifier := modifier.set "pinky_intermediate_phalange" (lib.rotate identity angle_90 (fvec3 0.0 0.0 1.0))
  modifier

/-- The block guarded by `current_action == 4` (lines 656-675). -/
def action4 (lib : Lib) (modifier : SkeletonModifier) : SkeletonModifier :=
  let modifier := modifier.set "thumb_proximal_phalange" (lib.rotate identity angle_45 (fvec3 0.0 0.0 1.0))
  let modifier := modifier.set "thumb_distal_phalange" (lib.rotate identity angle_30 (fvec3 0.0 0.0 1.0))
  let modifier := modifier.set "thumb_intermediate_phalange" (lib.rotate identity angle_30 (fvec3 0.0 0.0 1.0))
  let modifier := modifier.set "index_proximal_phalange" identity
  let modifier := modifier.set "index_intermediate_phalange" identity
  let modifier := modifier.set "index_distal_phalange" identity
  let modifier := modifier.set "middle_proximal_phalange" identity
  let modifier := modifier.set "middle_intermediate_phalange" identity
  let modifier := modifier.set "ring_proximal_phalange" identity
  let modifier := modifier.set "ring_intermediate_phalange" identity
  let modifier := modifier.set "pinky_proximal_phalange" identity
  let modifier := modifier.set "pinky_intermediate_phalange" identity
  modifier

/-- The block guarded by `current_action == 5` (lines 677-696). -/
def action5  (modifier : SkeletonModifier) : SkeletonModifier :=
  let modifier := modifier.set "thumb_proximal_phalange" identity
  let modifier := modifier.set "thumb_intermediate_phalange" identity
  let modifier := modifier.set "thumb_distal_phalange" identity
  let modifier := modifier.set "index_proximal_phalange" identity
  let modifier := modifier.set "index_intermediate_phalange" identity
  let modifier := modifier.set "index_distal_phalange" identity
  let modifier := modifier.set "middle_proximal_phalange" identity
  let modifier := modifier.set "middle_intermediate_phalange" identity
  let modifier := modifier.set "ring_proximal_phalange" identity
  let modifier := modifier.set "ring_intermediate_phalange" identity
  let modifier := modifier.set "pinky_proximal_phalange" identity
  let modifier := modifier.set "pinky_intermediate_phalange" identity
  modifier

/-- The block guarded by `current_action == 6` (lines 698-716). -/
def action6 (lib : Lib) (modifier : SkeletonModifier) : SkeletonModifier :=
  let modifier := modifier.set "thumb_proximal_phalange" identity
  let modifier := modifier.set "thumb_intermediate_phalange" identity
  let modifier := modifier.set "thumb_distal_phalange" identity
  let modifier := modifier.set "index_proximal_phalange" (lib.rotate identity angle_90 (fvec3 0.0 0.0 1.0))
  let modifier := modifier.set "index_intermediate_phalange" (lib.rotate identity angle_90 (fvec3 0.0 0.0 1.0))
  let modifier := modifier.set "index_distal_phalange" identity
  let modifier := modifier.set "middle_proximal_phalange" (lib.rotate identity angle_90 (fvec3 0.0 0.0 1.0))
  let modifier := modifier.set "middle_intermediate_phalange" (lib.rotate identity angle_90 (fvec3 0.0 0.0 1.0))
  let modifier := modifier.set "ring_proximal_phalange" (lib.rotate identity angle_90 (fvec3 0.0 0.0 1.0))
  let modifier := modifier.set "ring_intermediate_phalange" (lib.rotate identity angle_90 (fvec3 0.0 0.0 1.0))
  let modifier := modifier.set "pinky_proximal_phalange" identity
  let modifier := modifier.set "pinky_intermediate_phalange" identity
  modifier

/-- The block guarded by `current_action == 7` (lines 718-737). -/
def action7 (lib : Lib) (modifier : SkeletonModifier) : SkeletonModifier :=
  let modifier := modifier.set "thumb_proximal_phalange" (lib.rotate identity angle_10 (fvec3 0.0 0.0 1.0))
  let modifier := modifier.set "thumb_distal_phalange" (lib.rotate identity angle_30 (fvec3 0.0 0.0 1.0))
  let modifier := modifier.set "thumb_intermediate_phalange" (lib.rotate identity angle_30 (fvec3 0.0 0.0 1.0))
  let modifier := modifier.set "index_proximal_phalange" (lib.rotate identity angle_72 (fvec3 0.0 0.0 1.0))
  let modifier := modifier.set "index_intermediate_phalange" identity
  let modifier := modifier.set "index_distal_phalange" identity
  let modifier := modifier.set "middle_proximal_phalange" (lib.rotate identity angle_72 (fvec3 0.0 0.0 1.0))
  let modifier := modifier.set "middle_intermediate_phalange" identity
  let modifier := modifier.set "ring_proximal_phalange" (lib.rotate identity angle_90 (fvec3 0.0 0.0 1.0))
  let modifier := modifier.set "ring_intermediate_phalange" (lib.rotate identity angle_90 (fvec3 0.0 0.0 1.0))
  let modifier := modifier.set "pinky_proximal_phalange" (lib.rotate identity angle_90 (fvec3 0.0 0.0 1.0))
  let modifier := modifier.set "pinky_intermediate_phalange" (lib.rotate identity angle_90 (fvec3 0.0 0.0 1.0))
  modifier

/-- The block guarded by `current_action == 8` (lines 739-758). -/
def action8 (lib : Lib) (modifier : SkeletonModifier) : SkeletonModifier :=
  let modifier := modifier.set "thumb_proximal_phalange" identity
  let modifier := modifier.set "thumb_intermediate_phalange" identity
  let modifier := modifier.set "thumb_distal_phalange" identity
  let modifier := modifier.set "index_proximal_phalange" identity
  let modifier := modifier.set "index_intermediate_phalange" identity
  let modifier := modifier.set "index_distal_phalange" identity
  let modifier := modifier.set "middle_proximal_phalange" (lib.rotate identity angle_90 (fvec3 0.0 0.0 1.0))
  let modifier := modifier.set "middle_intermediate_phalange" (lib.rotate identity angle_90 (fvec3 0.0 0.0 1.0))
  let modifier := modifier.set "ring_proximal_phalange" (lib.rotate identity angle_90 (fvec3 0.0 0.0 1.0))
  let modifier := modifier.set "ring_intermediate_phalange" (lib.rotate identity angle_90 (fvec3 0.0 0.0 1.0))
  let modifier := modifier.set "pinky_proximal_phalange" (lib.rotate identity angle_90 (fvec3 0.0 0.0 1.0))
  let modifier := modifier.set "pinky_intermediate_phalange" (lib.rotate identity angle_90 (fvec3 0.0 0.0 1.0))
  modifier

/-- The block guarded by `current_action == 9` (lines 760-779). -/
def action9 (lib : Lib) (modifier : SkeletonModifier) : SkeletonModifier :=
  let modifier := modifier.set "thumb_proximal_phalange" (lib.rotate identity angle_45 (fvec3 0.0 0.0 1.0))
  let modifier := modifier.set "thumb_distal_phalange" (lib.rotate identity angle_30 (fvec3 0.0 0.0 1.0))
  let modifier := modifier.set "thumb_intermediate_phalange" (lib.rotate identity angle_30 (fvec3 0.0 0.0 1.0))
  let modifier := modifier.set "index_proximal_phalange" identity
  let modifier := modifier.set "index_distal_phalange" (lib.rotate identity angle_90 (fvec3 0.0 0.0 1.0))
  let modifier := modifier.set "index_intermediate_phalange" (lib.rotate identity angle_60 (fvec3 0.0 0.0 1.0))
  let modifier := modifier.set "middle_proximal_phalange" (lib.rotate identity angle_90 (fvec3 0.0 0.0 1.0))
  let modifier := modifier.set "middle_intermediate_phalange" (lib.rotate identity angle_90 (fvec3 0.0 0.0 1.0))
  let modifier := modifier.set "ring_proximal_phalange" (lib.rotate identity angle_90 (fvec3 0.0 0.0 1.0))
  let modifier := modifier.set "ring_intermediate_phalange" (lib.rotate identity angle_90 (fvec3 0.0 0.0 1.0))
  let modifier := modifier.set "pinky_proximal_phalange" (lib.rotate identity angle_90 (fvec3 0.0 0.0 1.0))
  let modifier := modifier.set "pinky_intermediate_phalange" (lib.rotate identity angle_90 (fvec3 0.0 0.0 1.0))
  modifier

/-- The block guarded by `current_action == 11` (lines 782-796): the hand waves. -/
def action11 (lib : Lib) (passed_time : ℚ) (modifier : SkeletonModifier) : SkeletonModifier :=
  let wave_time := passed_time * 2.0
  let wave_angle := lib.sin wave_time * M_PI / 3.0
  let modifier := modifier.set "metacarpals" (lib.rotate identity wave_angle (fvec3 0.0 1.0 0.0))
  let modifier := modifier.set "index_proximal_phalange" (lib.rotate identity angle_30 (fvec3 0.0 0.0 1.0))
  let modifier := modifier.set "middle_proximal_phalange" (lib.rotate identity angle_30 (fvec3 0.0 0.0 1.0))
  let modifier := modifier.set "ring_proximal_phalange" (lib.rotate identity angle_30 (fvec3 0.0 0.0 1.0))
  let modifier := modifier.set "pinky_proximal_phalange" (lib.rotate identity angle_30 (fvec3 0.0 0.0 1.0))
  let modifier := modifier.set "thumb_proximal_phalange" (lib.rotate identity angle_45 (fvec3 0.0 0.0 1.0))
  modifier

/-- Source: `float metacarpals_angle = passed_time * (M_PI / 4.0f);` -/
def metacarpals_angle (passed_time : ℚ) : ℚ := passed_time * (M_PI / 4.0)

/-- The per-frame pose update of `main` (lines 457-796): `resetFingers`, the metacarpals
assignment and the action blocks, in source order. -/
def poseUpdate (lib : Lib) (current_action : Int) (passed_time : ℚ)
    (modifier : SkeletonModifier) : SkeletonModifier :=
  let modifier := resetFingers modifier
  let modifier :=
    modifier.set "metacarpals" (lib.rotate identity (metacarpals_angle passed_time) (fvec3 1.0 0.0 0.0))
  let modifier := if current_action = 10 then action10 lib passed_time modifier else modifier
  let modifier := if current_action = 0 then action0 lib modifier else modifier
  let modifier := if current_action = 1 then action1 lib modifier else modifier
  let modifier := if current_action = 2 then action2 lib modifier else modifier
  let modifier := if current_action = 3 then action3 lib modifier else modifier
  let modifier := if current_action = 4 then action4 lib modifier else modifier
  let modifier := if current_action = 5 then action5 modifier else modifier
  let modifier := if current_action = 6 then action6 lib modifier else modifier
  let modifier := if current_action = 7 then action7 lib modifier else modifier
  let modifier := if current_action = 8 then action8 lib modifier else modifier
  let modifier := if current_action = 9 then action9 lib modifier else modifier
  let modifier := if current_action = 11 then action11 lib passed_time modifier else modifier
  modifier

/-- The bone names the animation code writes: metacarpals and the proximal, intermediate
and distal phalanges of the five fingers. -/
def animatedBones : List String :=
  ["metacarpals",
   "index_proximal_phalange", "index_intermediate_phalange", "index_distal_phalange",
   "middle_proximal_phalange", "middle_intermediate_phalange", "middle_distal_phalange",
   "ring_proximal_phalange", "ring_intermediate_phalange", "ring_distal_phalange",
   "pinky_proximal_phalange", "pinky_intermediate_phalange", "pinky_distal_phalange",
   "thumb_proximal_phalange", "thumb_intermediate_phalange", "thumb_distal_phalange"]

/-- The 15 finger bones: the proximal, intermediate and distal phalange of thumb, index,
middle, ring and pinky. -/
def fingerBones : List String :=
  ["thumb_proximal_phalange", "thumb_intermediate_phalange", "thumb_distal_phalange",
   "index_proximal_phalange", "index_intermediate_phalange", "index_distal_phalange",
   "middle_proximal_phalange", "middle_intermediate_phalange", "middle_distal_phalange",
   "ring_proximal_phalange", "ring_intermediate_phalange", "ring_distal_phalange",
   "pinky_proximal_phalange", "pinky_intermediate_phalange", "pinky_distal_phalange"]

/-- The block guarded by `current_action == k` as a step of the pose update. -/
def onAction (current_action k : Int) (block : SkeletonModifier → SkeletonModifier)
    (modifier : SkeletonModifier) : SkeletonModifier :=
  if current_action = k then block modifier else modifier

/-- A step of the pose update keeps two maps agreeing at `n` once they agree there. -/
def KeepsAgreement (n : String) (step : SkeletonModifier → SkeletonModifier) : Prop :=
  ∀ m₁ m₂ : SkeletonModifier, m₁ n = m₂ n → step m₁ n = step m₂ n

/-- Example library: `fmod` and `abs` exact, `sin` and `glm::rotate` replaced by their
first-order terms in the angle. -/
def sampleLib : Lib :=
  { rotate := fun m angle axis =>
      m * (1 + SkeletalAnimation.matTimes
        !![0, -(axis 2), axis 1, 0; axis 2, 0, -(axis 0), 0; -(axis 1), axis 0, 0, 0; 0, 0, 0, 0]
        angle)
    sin := fun x => x
    fmod := fun x y => x - (if 0 ≤ x / y then (⌊x / y⌋ : ℚ) else (⌈x / y⌉ : ℚ)) * y
    abs := fun x => |x| }

/-- Example of a map left by an earlier frame: the middle finger is bent. -/
def staleModifier : SkeletonModifier :=
  SkeletonModifier.empty.set "middle_proximal_phalange" SkeletalMesh.quarterTurnZ

end Hand

namespace TextureImage

/-- The data members of `class Texture`. -/
structure Texture where
  available : Bool
  name : String
  filename : String
  width : Int
  height : Int
  tex : Nat

/-- The default constructor `Texture()`:
`available(false), name(), filename(), width(0), height(0), tex(0)`. -/
def Texture.new : Texture :=
  { available := false, name := "", filename := "", width := 0, height := 0, tex := 0 }

/-- A `Texture &` or `Texture *`: the static member `Texture::error`, or the object
created by the `addr`-th evaluation of `new Texture()`. -/
inductive TexRef where
  | error
  | heap (addr : Nat)
  deriving DecidableEq

/-- The program state `class Texture` works on: the static members `allTexture` and
`error`, and the objects created by `new Texture()`. -/
structure Store where
  allTexture : String → Option TexRef
  error : Texture
  heap : Nat → Texture
  next : Nat

/-- The state after static initialization: `allTexture` empty, `error` default
constructed, nothing allocated. -/
def Store.init : Store :=
  { allTexture := fun _ => none, error := Texture.new, heap := fun _ => Texture.new, next := 0 }

/-- The object a reference designates. -/
def Store.deref (s : Store) : TexRef → Texture
  | TexRef.error => s.error
  | TexRef.heap a => s.heap a

/-- The state with the object a reference designates replaced. -/
def Store.assign (s : Store) (r : TexRef) (t : Texture) : Store :=
  match r with
  | TexRef.error => { s with error := t }
  | TexRef.heap a => { s with heap := fun b => if b = a then t else s.heap b }

/-- What a call reads from outside the class: whether `fopen(name, "r")` succeeds, what
`stbi_load` decodes (width, height, channels; `none` for a null result), the name
`glGenTextures` hands out, and whether the `glGetError()` that follows the upload
reports an error. -/
structure Env where
  fopen : String → Bool
  stbi_load : String → Option (Int × Int × Int)
  glGenTextures : Nat
  glGetError : Bool

/-- Source: `void clear()` on the object `r` designates. -/
def clear (s : Store) (r : TexRef) : Store :=
  s.assign r { s.deref r with available := false, name := "", filename := "", tex := 0 }

/-- The array `support_suffix` of `testAllSuffix`. -/
def support_suffix : List String := [".bmp", ".jpg", ".jpeg", ".png", ".tga"]

/-- The loop of `testAllSuffix` over the suffixes still to try. -/
def testSuffixes (env : Env) (no_suffix_name : String) : List String → String
  | [] => ""
  | suffix :: rest =>
    let try_filename := no_suffix_name ++ suffix
    if env.fopen try_filename then try_filename else testSuffixes env no_suffix_name rest

/-- Source: `static std::string testAllSuffix(std::string no_suffix_name)` -/
def testAllSuffix (env : Env) (no_suffix_name : String) : String :=
  testSuffixes env no_suffix_name support_suffix

/-- The file name `loadTexture` goes on with after lines 115-118, or `none` when it
returns `error` there. -/
def resolveFilename (env : Env) (_name _filename : String) : Option String :=
  if _filename.isEmpty || _filename == "" then
    let found := testAllSuffix env _name
    if found.isEmpty then none else some found
  else some _filename

/-- Lines 135-188 of `loadTexture`: the image is decoded and uploaded into the object
`target` designates. -/
def decodeInto (env : Env) (s : Store) (target : TexRef) (_name _filename : String) :
    TexRef × Store :=
  let s := s.assign target { s.deref target with name := _name }
  let s := s.assign target { s.deref target with filename := _filename }
  match env.stbi_load _filename with
  | none => (TexRef.error, s)
  | some (width, height, _) =>
    let s := s.assign target { s.deref target with width := width, height := height }
    let s := s.assign target { s.deref target with tex := env.glGenTextures }
    if env.glGetError then (TexRef.error, s)
    else
      let s := s.assign target { s.deref target with available := true }
      (target, s)

/-- The state after `new Texture()`: a default-constructed object at the next address. -/
def Store.alloc (s : Store) : Store :=
  { s with heap := fun b => if b = s.next then Texture.new else s.heap b, next := s.next + 1 }

/-- Source: `static Texture &loadTexture(std::string _name, std::string _filename = std::string())`:
the reference returned and the state left. -/
def loadTexture (env : Env) (s : Store) (_name : String) (_filename : String) : TexRef × Store :=
  match resolveFilename env _name _filename with
  | none => (TexRef.error, s)
  | some _filename =>
    if !env.fopen _filename then (TexRef.error, s)
    else
      -- `new Texture()` is evaluated whether or not the insertion takes place
      let fresh := TexRef.heap s.next
      let s := s.alloc
      match s.allTexture _name with
      | some target =>
        -- `!insertion.second`: the name is registered already
        if (s.deref target).filename == _filename && (s.deref target).available then
          (target, s)
        else
          decodeInto env (clear s target) target _name _filename
      | none =>
        let s := { s with allTexture := fun k => if k = _name then some fresh else s.allTexture k }
        decodeInto env s fresh _name _filename

/-- Source: `static bool unloadTexture(std::string _name)`: `allTexture.erase(_name) != 0`. -/
def unloadTexture (s : Store) (_name : String) : Bool × Store :=
  ((s.allTexture _name).isSome,
    { s with allTexture := fun k => if k = _name then none else s.allTexture k })

/-- Source: `static Texture &getTexture(const std::string &_name)`: the reference returned and the
state left. -/
def getTexture (s : Store) (_name : String) : TexRef × Store :=
  match s.allTexture _name with
  | none => (TexRef.error, s)
  | some find_result => (find_result, s)

/-- Source: `GL_TEXTURE0` -/
def GL_TEXTURE0 : Nat := 0x84C0

/-- The part of the GL state `bind` writes: the active texture unit and the texture bound
to `GL_TEXTURE_2D` on each unit. -/
structure GLState where
  activeTexture : Nat
  texture2D : Nat → Nat

/-- Source: `bool bind(GLenum textureChannel) const` on the object `r` designates. -/
def bind (s : Store) (r : TexRef) (textureChannel : Nat) (gl : GLState) : Bool × GLState :=
  if !(s.deref r).available then (false, gl)
  else
    let gl := { gl with activeTexture := GL_TEXTURE0 + textureChannel }
    let gl := { gl with texture2D := fun u => if u = gl.activeTexture then (s.deref r).tex else gl.texture2D u }
    (true, gl)

/-- The states the public interface of `Texture` reaches from static initialization:
through `loadTexture`, `unloadTexture`, `getTexture` and `clear`. -/
inductive Reachable : Store → Prop where
  | init : Reachable Store.init
  | loadTexture (env : Env) (s : Store) (_name _filename : String) :
      Reachable s → Reachable (loadTexture env s _name _filename).2
  | unloadTexture (s : Store) (_name : String) : Reachable s → Reachable (unloadTexture s _name).2
  | getTexture (s : Store) (_name : String) : Reachable s → Reachable (getTexture s _name).2
  | clear (s : Store) (r : TexRef) : Reachable s → Reachable (clear s r)

/-- The texture registered under `_name` was loaded from `_filename` and is available:
the case in which `loadTexture` returns it without decoding anything (lines 127-129). -/
def AlreadyLoaded (s : Store) (_name _filename : String) : Prop :=
  ∃ r, s.allTexture _name = some r ∧ (s.deref r).filename = _filename ∧ (s.deref r).available = true

/-- The load fails, as the failure causes are listed without regard to the registry: no
file with a supported suffix is found for an empty file name, or the file cannot be
opened, or the image cannot be decoded, or a GL error is raised. -/
def LoadFails (env : Env) (_name _filename : String) : Prop :=
  (_filename = "" ∧ ∀ suffix ∈ support_suffix, env.fopen (_name ++ suffix) = false) ∨
  ∃ file, resolveFilename env _name _filename = some file ∧
    (env.fopen file = false ∨ env.stbi_load file = none ∨ env.glGetError = true)

/-- The failure causes with the early return of lines 127-129 taken into account: no file
with a supported suffix is found for an empty file name, or the file cannot be opened,
or, unless the texture is registered already as available and loaded from that file (it
is then returned without decoding), the image cannot be decoded or a GL error is
raised. -/
def LoadFailsUnlessCached (env : Env) (s : Store) (_name _filename : String) : Prop :=
  (_filename = "" ∧ ∀ suffix ∈ support_suffix, env.fopen (_name ++ suffix) = false) ∨
  ∃ file, resolveFilename env _name _filename = some file ∧
    (env.fopen file = false ∨
      (¬ AlreadyLoaded s _name file ∧ (env.stbi_load file = none ∨ env.glGetError = true)))

/-- The registry only holds references to objects created by `new Texture()`, and the
static `error` object is not available. -/
def WellFormed (s : Store) : Prop :=
  (∀ n r, s.allTexture n = some r → ∃ a, r = TexRef.heap a ∧ a < s.next) ∧
    s.error.available = false

/-- Example environment: only "hand.png" opens and decodes. -/
def sampleEnv : Env :=
  { fopen := fun f => f == "hand.png"
    stbi_load := fun f => if f == "hand.png" then some (4, 2, 3) else none
    glGenTextures := 7
    glGetError := false }

/-- Example environment in which "hand.png" still opens but no longer decodes. -/
def brokenEnv : Env :=
  { fopen := fun f => f == "hand.png"
    stbi_load := fun _ => none
    glGenTextures := 8
    glGetError := false }

/-- Example state: the state after `loadTexture("hand")` in `sampleEnv`, from static
initialization. -/
def loadedStore : Store := (loadTexture sampleEnv Store.init "hand" "").2

end TextureImage

namespace SkeletalAnimation

theorem adjust_factor_eq (w : Fin 4 → ℚ) : adjust_factor w = weightSum w / 4 := by
  simp only [adjust_factor, loop4, List.foldl, weightSum]
  norm_num
  ring

theorem blend_of_gt (u : Uniforms) (a : VertexIn) (h : adjust_factor a.in_bone_weight > 1e-3) :
    blend u a =
      loop4.foldl (blendStep u a (adjust_factor a.in_bone_weight))
        { bone_transform := 0, divisors := [] } := by
  simp only [blend]
  rw [if_pos h, sub_self]

theorem blend_of_not_gt (u : Uniforms) (a : VertexIn) (h : ¬ adjust_factor a.in_bone_weight > 1e-3) :
    blend u a = { bone_transform := 1, divisors := [] } := by
  simp only [blend]
  rw [if_neg h]

theorem bone_transform_of_gt (u : Uniforms) (a : VertexIn)
    (h : adjust_factor a.in_bone_weight > 1e-3) :
    bone_transform u a =
      ∑ i : Fin 4, (a.in_bone_weight i / (weightSum a.in_bone_weight / 4)) •
        u.u_bone_transf (a.in_bone_index i) := by
  rw [bone_transform, blend_of_gt u a h, adjust_factor_eq]
  simp only [loop4, List.foldl, blendStep, Fin.sum_univ_four]
  ext i j
  simp only [Matrix.add_apply, Matrix.zero_apply, Matrix.smul_apply, matOver, matTimes, smul_eq_mul]
  ring

theorem blend_divisors_of_gt (u : Uniforms) (a : VertexIn)
    (h : adjust_factor a.in_bone_weight > 1e-3) :
    (blend u a).divisors =
      [adjust_factor a.in_bone_weight, adjust_factor a.in_bone_weight,
        adjust_factor a.in_bone_weight, adjust_factor a.in_bone_weight] := by
  rw [blend_of_gt u a h]
  simp [loop4, List.foldl, blendStep]

theorem bone_transform_of_not_gt (u : Uniforms) (a : VertexIn)
    (h : ¬ adjust_factor a.in_bone_weight > 1e-3) : bone_transform u a = 1 := by
  rw [bone_transform, blend_of_not_gt u a h]

theorem sampleVertex_adjust : adjust_factor sampleVertex.in_bone_weight > 1e-3 := by
  rw [adjust_factor_eq]
  norm_num [weightSum, sampleVertex]

theorem sampleVertex_entry : bone_transform sampleUniforms sampleVertex 0 0 = 8 := by
  rw [bone_transform_of_gt _ _ sampleVertex_adjust]
  simp [Fin.sum_univ_four, sampleUniforms, sampleVertex, weightSum, Matrix.sum_apply]
  norm_num

/-- C1 (as stated, refuted): for the weights (0.3, 0.3, 0.3, 0.0) on bones (0, 1, 2, 3),
whose sum 0.9 is above 1e-3, the shader's `bone_transform` is neither the blend normalized
by the weight sum nor `(0.3 M_0 + 0.3 M_1 + 0.3 M_2 + 0 M_3) / 0.9`; and for weights summing
to 0.002, also above 1e-3, it is the identity and not the normalized blend. -/
theorem c1_counterexample :
    (weightSum sampleVertex.in_bone_weight ≥ 1e-3 ∧
      bone_transform sampleUniforms sampleVertex ≠ normalizedBlend sampleUniforms sampleVertex ∧
      bone_transform sampleUniforms sampleVertex ≠
        matOver ((0.3 : ℚ) • sampleUniforms.u_bone_transf 0 + (0.3 : ℚ) • sampleUniforms.u_bone_transf 1
          + (0.3 : ℚ) • sampleUniforms.u_bone_transf 2 + (0 : ℚ) • sampleUniforms.u_bone_transf 3) 0.9) ∧
    (weightSum faintVertex.in_bone_weight ≥ 1e-3 ∧
      bone_transform sampleUniforms faintVertex ≠ normalizedBlend sampleUniforms faintVertex) := by
  refine ⟨⟨?_, ?_, ?_⟩, ?_, ?_⟩
  · norm_num [weightSum, sampleVertex]
  · intro h
    have h00 := congrFun (congrFun h 0) 0
    rw [sampleVertex_entry] at h00
    simp [normalizedBlend, Fin.sum_univ_four, sampleUniforms, sampleVertex, weightSum,
      Matrix.sum_apply] at h00
    norm_num at h00
  · intro h
    have h00 := congrFun (congrFun h 0) 0
    rw [sampleVertex_entry] at h00
    simp [matOver, sampleUniforms] at h00
    norm_num at h00
  · norm_num [weightSum, faintVertex]
  · intro h
    have hlow : ¬ adjust_factor faintVertex.in_bone_weight > 1e-3 := by
      rw [adjust_factor_eq]
      norm_num [weightSum, faintVertex]
    rw [bone_transform_of_not_gt _ _ hlow] at h
    have h00 := congrFun (congrFun h 0) 0
    simp [normalizedBlend, Fin.sum_univ_four, sampleUniforms, faintVertex, sampleVertex, weightSum,
      Matrix.sum_apply] at h00
    norm_num at h00

/-- C1 (amended): whenever a quarter of the weight sum is strictly above 1e-3, the shader's
`bone_transform` is the sum over the four influences of
`(weight_i / (weightSum / 4)) * boneMatrix[index_i]`, that is four times the blend normalized
by the weight sum; in particular for the weights (0.3, 0.3, 0.3, 0.0) on bones (A, B, C, D) it
is `(0.3 M_A + 0.3 M_B + 0.3 M_C + 0 M_D) / 0.225`. -/
theorem bone_transform_quarter_normalized (u : Uniforms) (a : VertexIn)
    (h : weightSum a.in_bone_weight / 4 > 1e-3) :
    bone_transform u a =
        ∑ i : Fin 4, (a.in_bone_weight i / (weightSum a.in_bone_weight / 4)) •
          u.u_bone_transf (a.in_bone_index i) ∧
      bone_transform u a = (4 : ℚ) • normalizedBlend u a ∧
      (a.in_bone_weight = ![0.3, 0.3, 0.3, 0.0] →
        bone_transform u a =
          matOver ((0.3 : ℚ) • u.u_bone_transf (a.in_bone_index 0)
            + (0.3 : ℚ) • u.u_bone_transf (a.in_bone_index 1)
            + (0.3 : ℚ) • u.u_bone_transf (a.in_bone_index 2)
            + (0 : ℚ) • u.u_bone_transf (a.in_bone_index 3)) 0.225) := by
  have hgt : adjust_factor a.in_bone_weight > 1e-3 := by rw [adjust_factor_eq]; exact h
  refine ⟨bone_transform_of_gt u a hgt, ?_, ?_⟩
  · rw [bone_transform_of_gt u a hgt, normalizedBlend, Finset.smul_sum]
    refine Finset.sum_congr rfl (fun i _ => ?_)
    rw [smul_smul]
    congr 1
    have hne : weightSum a.in_bone_weight ≠ 0 := by
      intro h0
      rw [h0] at h
      norm_num at h
    field_simp
    ring
  · intro hw
    rw [bone_transform_of_gt u a hgt]
    ext i j
    simp only [Fin.sum_univ_four, weightSum, hw, matOver, Matrix.add_apply, Matrix.smul_apply,
      smul_eq_mul]
    norm_num
    ring

/-- C1 (amended), at the weights (0.3, 0.3, 0.3, 0.0) on bones (0, 1, 2, 3): the divisor is
0.9 / 4 = 0.225. -/
theorem bone_transform_quarter_normalized_witness :
    weightSum sampleVertex.in_bone_weight / 4 > 1e-3 ∧
      bone_transform sampleUniforms sampleVertex = (4 : ℚ) • normalizedBlend sampleUniforms sampleVertex ∧
      bone_transform sampleUniforms sampleVertex =
        matOver ((0.3 : ℚ) • sampleUniforms.u_bone_transf 0 + (0.3 : ℚ) • sampleUniforms.u_bone_transf 1
          + (0.3 : ℚ) • sampleUniforms.u_bone_transf 2 + (0 : ℚ) • sampleUniforms.u_bone_transf 3) 0.225 :=
  ⟨by norm_num [weightSum, sampleVertex],
    (bone_transform_quarter_normalized sampleUniforms sampleVertex
      (by norm_num [weightSum, sampleVertex])).2.1,
    (bone_transform_quarter_normalized sampleUniforms sampleVertex
      (by norm_num [weightSum, sampleVertex])).2.2 rfl⟩

/-- C2: when the four bone weights sum to less than 1e-3 (in particular when they are all
zero) the shader's `bone_transform` is exactly the identity matrix, whatever the bone
indices and bone matrices are, and no division is executed. -/
theorem bone_transform_identity_below_epsilon (u : Uniforms) (a : VertexIn)
    (h : weightSum a.in_bone_weight < 1e-3) :
    bone_transform u a = 1 ∧ (blend u a).divisors = [] := by
  have hlow : ¬ adjust_factor a.in_bone_weight > 1e-3 := by
    rw [adjust_factor_eq]
    intro hgt
    norm_num at h hgt
    linarith
  exact ⟨bone_transform_of_not_gt u a hlow, by rw [blend_of_not_gt u a hlow]⟩

/-- C2 at the all-zero weights, with non-identity bone matrices. -/
theorem bone_transform_identity_below_epsilon_witness :
    weightSum unskinnedVertex.in_bone_weight < 1e-3 ∧
      (bone_transform sampleUniforms unskinnedVertex = 1 ∧
        (blend sampleUniforms unskinnedVertex).divisors = []) :=
  ⟨by norm_num [weightSum, unskinnedVertex],
    bone_transform_identity_below_epsilon sampleUniforms unskinnedVertex
      (by norm_num [weightSum, unskinnedVertex])⟩

/-- C3: the emitted position is the view-projection matrix applied to the blended bone
transform applied to the homogeneous bind-pose position:
`gl_Position = u_mvp * (bone_transform * (in_position, 1))`. -/
theorem gl_Position_eq (u : Uniforms) (a : VertexIn) :
    (main u a).gl_Position =
      Matrix.mulVec u.u_mvp (Matrix.mulVec (bone_transform u a) (vec4 a.in_position 1)) := by
  simp only [main]
  rw [Matrix.mulVec_mulVec]
  norm_num

/-- C4: the normalization factor is (sum of the four weights) / 4; a division is executed
only when that factor is strictly greater than 1e-3; every division executed divides by
that factor, which is then greater than 1e-3 and so non-zero. -/
theorem division_guarded (u : Uniforms) (a : VertexIn) :
    adjust_factor a.in_bone_weight =
        (a.in_bone_weight 0 + a.in_bone_weight 1 + a.in_bone_weight 2 + a.in_bone_weight 3) / 4 ∧
      ((blend u a).divisors ≠ [] ↔ adjust_factor a.in_bone_weight > 1e-3) ∧
      ∀ d ∈ (blend u a).divisors, d = adjust_factor a.in_bone_weight ∧ d > 1e-3 ∧ d ≠ 0 := by
  refine ⟨adjust_factor_eq _, ?_, ?_⟩
  · by_cases h : adjust_factor a.in_bone_weight > 1e-3
    · simp [blend_divisors_of_gt u a h, h]
    · simp [blend_of_not_gt u a h, h]
  · intro d hd
    by_cases h : adjust_factor a.in_bone_weight > 1e-3
    · rw [blend_divisors_of_gt u a h] at hd
      have hd' : d = adjust_factor a.in_bone_weight := by simpa using hd
      subst hd'
      refine ⟨rfl, h, ?_⟩
      intro h0
      rw [h0] at h
      norm_num at h
    · rw [blend_of_not_gt u a h] at hd
      simp at hd

end SkeletalAnimation

namespace SkeletalMesh

open SkeletalAnimation (Mat4 Vec3 MAX_BONES)

theorem composeWorlds_append (m : SkeletonModifier) (post : List Bone) (ws : List Mat4) :
    ∃ tail, composeWorlds m post ws = ws ++ tail ∧ tail.length = post.length := by
  induction post generalizing ws with
  | nil => exact ⟨[], by simp [composeWorlds]⟩
  | cons b rest ih =>
    obtain ⟨tail, htail, hlen⟩ := ih (ws ++ [boneWorld m ws b])
    refine ⟨boneWorld m ws b :: tail, ?_, by simp [hlen]⟩
    simp [composeWorlds, htail]

theorem composeWorlds_length (m : SkeletonModifier) (post : List Bone) (ws : List Mat4) :
    (composeWorlds m post ws).length = ws.length + post.length := by
  obtain ⟨tail, htail, hlen⟩ := composeWorlds_append m post ws
  rw [htail, List.length_append, hlen]

theorem compose_length (h : HierarchyStore) (m : SkeletonModifier) :
    (compose h m).length = h.length := by
  simp [compose, composeWorlds_length]

theorem composeWorlds_getElem (m : SkeletonModifier) (post : List Bone) (ws : List Mat4)
    (j : Nat) (b : Bone) (hb : post.get? j = some b) :
    (composeWorlds m post ws).get? (ws.length + j) =
      some (boneWorld m ((composeWorlds m post ws).take (ws.length + j)) b) := by
  induction post generalizing ws j with
  | nil => simp at hb
  | cons c rest ih =>
    cases j with
    | zero =>
      simp at hb
      subst hb
      obtain ⟨tail, htail, _⟩ := composeWorlds_append m rest (ws ++ [boneWorld m ws c])
      simp [composeWorlds, htail, List.getElem_append_right]
    | succ j =>
      simp at hb
      have := ih (ws ++ [boneWorld m ws c]) j (by simpa using hb)
      simp only [composeWorlds]
      rw [show ws.length + (j + 1) = (ws ++ [boneWorld m ws c]).length + j by simp; omega]
      exact this

theorem composeWorlds_congr (m₁ m₂ : SkeletonModifier) (post : List Bone) (ws : List Mat4)
    (hm : ∀ b ∈ post, m₁.get b.name = m₂.get b.name) :
    composeWorlds m₁ post ws = composeWorlds m₂ post ws := by
  induction post generalizing ws with
  | nil => rfl
  | cons b rest ih =>
    have hb : boneWorld m₁ ws b = boneWorld m₂ ws b := by
      simp [boneWorld, hm b (List.mem_cons_self _ _)]
    simp only [composeWorlds, hb]
    exact ih _ (fun c hc => hm c (List.mem_cons_of_mem _ hc))

theorem erase_get_of_ne (m : SkeletonModifier) (k n : String) (h : n ≠ k) :
    (m.erase k).get n = m.get n := by
  simp [SkeletonModifier.erase, SkeletonModifier.get, h]

end SkeletalMesh

namespace SkeletalMesh

open SkeletalAnimation (Mat4 Vec3 MAX_BONES)

theorem bindWorld_succ (h : HierarchyStore) (fuel i : Nat) (b : Bone) (hb : h.get? i = some b) :
    bindWorld h (fuel + 1) i =
      (if b.parent < 0 then 1 else bindWorld h fuel b.parent.toNat) * b.bindLocal := by
  simp only [bindWorld, hb]

theorem bindWorld_fuel (h : HierarchyStore) (hp : ParentsPrecede h) (i : Nat) :
    ∀ fuel, i < fuel → bindWorld h fuel i = bindWorld h (i + 1) i := by
  induction i using Nat.strong_induction_on with
  | _ i ih =>
    intro fuel hfuel
    obtain ⟨f, rfl⟩ : ∃ f, fuel = f + 1 := ⟨fuel - 1, by omega⟩
    cases hb : h.get? i with
    | none => simp only [bindWorld, hb]
    | some b =>
      rw [bindWorld_succ h f i b hb, bindWorld_succ h i i b hb]
      rcases hp i b hb with hroot | ⟨h0, hlt⟩
      · simp [hroot]
      · have hneg : ¬ b.parent < 0 := by omega
        rw [if_neg hneg, if_neg hneg, ih _ hlt f (by omega), ih _ hlt i hlt]

theorem parentWorld_bind (h : HierarchyStore) (hp : ParentsPrecede h) (ws : List Mat4)
    (n : Nat) (b : Bone) (hb : h.get? n = some b)
    (hws : ∀ j, j < n → ws.get? j = some (bindWorld h (j + 1) j)) :
    boneWorld SkeletonModifier.empty ws b = bindWorld h (n + 1) n := by
  rw [bindWorld_succ h n n b hb]
  simp only [boneWorld, parentWorld, SkeletonModifier.get, SkeletonModifier.empty,
    Option.getD_none, mul_one]
  rcases hp n b hb with hroot | ⟨h0, hlt⟩
  · simp [hroot]
  · have hneg : ¬ b.parent < 0 := by omega
    rw [if_neg hneg, if_neg hneg, bindWorld_fuel h hp _ n hlt]
    have := hws _ hlt
    rw [List.getD_eq_getElem?_getD]
    rw [List.get?_eq_getElem?] at this
    rw [this, Option.getD_some]

theorem composeWorlds_empty_bind (h : HierarchyStore) (hp : ParentsPrecede h) :
    ∀ (post pre : List Bone) (ws : List Mat4), h = pre ++ post → ws.length = pre.length →
      (∀ j, j < pre.length → ws.get? j = some (bindWorld h (j + 1) j)) →
      ∀ j, j < h.length →
        (composeWorlds SkeletonModifier.empty post ws).get? j = some (bindWorld h (j + 1) j) := by
  intro post
  induction post with
  | nil =>
    intro pre ws hsplit _ hws j hj
    rw [hsplit] at hj
    simpa [composeWorlds] using hws j (by simpa using hj)
  | cons b rest ih =>
    intro pre ws hsplit hlen hws j hj
    simp only [composeWorlds]
    have hb : h.get? pre.length = some b := by
      rw [hsplit]; simp [List.getElem_append_right]
    refine ih (pre ++ [b]) _ (by simp [hsplit]) (by simp [hlen]) ?_ j hj
    intro k hk
    simp only [List.length_append, List.length_singleton] at hk
    rcases Nat.lt_succ_iff_lt_or_eq.mp hk with hk | hk
    · have := hws k hk
      rw [List.get?_eq_getElem?] at this ⊢
      rw [List.getElem?_append_left (by omega)]
      exact this
    · subst hk
      rw [List.get?_eq_getElem?, ← hlen, List.getElem?_append_right (le_refl _)]
      simp only [Nat.sub_self, List.getElem?_cons_zero]
      rw [parentWorld_bind h hp ws ws.length b (by rw [hlen]; exact hb)
        (by intro j hj; exact hws j (by omega)), hlen]

theorem compose_empty_getElem (h : HierarchyStore) (hv : Valid h) (i : Nat) (M : Mat4)
    (hM : (compose h SkeletonModifier.empty).get? i = some M) : M = 1 := by
  obtain ⟨hp, hbind⟩ := hv
  rw [List.get?_eq_getElem?] at hM
  simp only [compose, List.getElem?_zipWith] at hM
  cases hW : (composeWorlds SkeletonModifier.empty h [])[i]? with
  | none => simp [hW] at hM
  | some W =>
    cases hb : h[i]? with
    | none => simp [hW, hb] at hM
    | some b =>
      simp only [hW, hb] at hM
      have hi : i < h.length := by
        rcases Nat.lt_or_ge i h.length with hlt | hge
        · exact hlt
        · rw [List.getElem?_eq_none hge] at hb; cases hb
      have hWeq := composeWorlds_empty_bind h hp h [] [] (by simp) rfl (by intro j hj; simp at hj) i hi
      rw [List.get?_eq_getElem?, hW] at hWeq
      have hcorrect := hbind i b (by rw [List.get?_eq_getElem?]; exact hb)
      rw [bindWorld_fuel h hp i h.length hi] at hcorrect
      simp only [Option.some.injEq] at hWeq
      simp at hM
      rw [← hM, hWeq]
      exact hcorrect

end SkeletalMesh

namespace SkeletalMesh

open SkeletalAnimation (Mat4 Vec3 MAX_BONES)

theorem translate_mul (a b c x y z : ℚ) :
    translate a b c * translate x y z = translate (a + x) (b + y) (c + z) := by
  ext i j
  fin_cases i <;> fin_cases j <;>
    simp [translate, Matrix.mul_apply, Fin.sum_univ_four, Matrix.vecHead, Matrix.vecTail] <;> ring

theorem translate_zero : translate 0 0 0 = 1 := by
  ext i j
  fin_cases i <;> fin_cases j <;> simp [translate, Matrix.vecHead, Matrix.vecTail]

theorem parentsPrecede_sound (h : HierarchyStore) (hb : parentsPrecede h = true) :
    ParentsPrecede h := by
  intro i b hi
  have hlt : i < h.length := by
    rcases Nat.lt_or_ge i h.length with hlt | hge
    · exact hlt
    · rw [List.get?_eq_getElem?, List.getElem?_eq_none hge] at hi; cases hi
  simp only [parentsPrecede, List.all_eq_true, List.mem_range] at hb
  have := hb i hlt
  simp only [hi, Bool.or_eq_true, beq_iff_eq, Bool.and_eq_true, decide_eq_true_eq] at this
  exact this

theorem sampleHand_valid : Valid sampleHand := by
  refine ⟨parentsPrecede_sound _ (by decide), ?_⟩
  intro i b hb
  have hi : i < 5 := by
    rcases Nat.lt_or_ge i 5 with hlt | hge
    · exact hlt
    · rw [List.get?_eq_getElem?, List.getElem?_eq_none (by simpa [sampleHand] using hge)] at hb
      cases hb
  interval_cases i <;> simp [sampleHand] at hb <;> subst hb <;>
    simp [bindWorld, sampleHand, translate_mul, translate_zero] <;>
    norm_num [translate_zero]

/-- C5: for every valid hierarchy (parents precede their children, every cached inverse bind
transform inverts the bone's bind-pose world transform), composing with the empty modifier
map yields one matrix per bone, each of them the identity. -/
theorem compose_empty_identity (h : HierarchyStore) (hv : Valid h) :
    (compose h SkeletonModifier.empty).length = h.length ∧
      ∀ i M, (compose h SkeletonModifier.empty).get? i = some M → M = 1 :=
  ⟨compose_length h _, fun i M hM => compose_empty_getElem h hv i M hM⟩

/-- C5 at the five-bone example hierarchy. -/
theorem compose_empty_identity_witness :
    Valid sampleHand ∧
      (compose sampleHand SkeletonModifier.empty).length = sampleHand.length ∧
      ∀ i M, (compose sampleHand SkeletonModifier.empty).get? i = some M → M = 1 :=
  ⟨sampleHand_valid, compose_empty_identity sampleHand sampleHand_valid⟩

/-- C6: when the modifier map has an entry for a name `k` that no bone of the hierarchy
carries, composition still returns exactly one matrix per bone, the same array as for the
map with the entry of `k` removed, and the matrix at index `i` is the one of bone `i`: its
world transform, computed from the bones before it, times its inverse bind transform. -/
theorem compose_unknown_bone (h : HierarchyStore) (m : SkeletonModifier) (k : String)
    (hk : ∀ b ∈ h, b.name ≠ k) :
    (compose h m).length = h.length ∧
      compose h m = compose h (m.erase k) ∧
      ∀ i b, h.get? i = some b →
        (compose h m).get? i =
          some (boneWorld m ((composeWorlds m h []).take i) b * b.inverseBind) := by
  refine ⟨compose_length h m, ?_, ?_⟩
  · simp only [compose]
    rw [composeWorlds_congr m (m.erase k) h []
      (fun b hb => (erase_get_of_ne m k b.name (hk b hb)).symm)]
  · intro i b hb
    have hW := composeWorlds_getElem m h [] i b hb
    simp only [List.length_nil, Nat.zero_add] at hW
    rw [List.get?_eq_getElem?] at hW hb ⊢
    simp only [compose, List.getElem?_zipWith, hW, hb, Option.map_some', Option.bind_some]

/-- C6 at the five-bone example hierarchy and a modifier map with an entry for "elbow". -/
theorem compose_unknown_bone_witness :
    sampleModifier "elbow" ≠ none ∧ sampleHand.length = 5 ∧
      ((compose sampleHand sampleModifier).length = sampleHand.length ∧
        compose sampleHand sampleModifier = compose sampleHand (sampleModifier.erase "elbow") ∧
        ∀ i b, sampleHand.get? i = some b →
          (compose sampleHand sampleModifier).get? i =
            some (boneWorld sampleModifier ((composeWorlds sampleModifier sampleHand []).take i) b
              * b.inverseBind)) :=
  ⟨by simp [sampleModifier, SkeletonModifier.set], rfl,
    compose_unknown_bone sampleHand sampleModifier "elbow" (by simp [sampleHand])⟩

theorem loadScene_loaded (asset : List Bone) (h : HierarchyStore)
    (hl : loadScene asset = Scene.loaded h) : h = asset ∧ asset.length ≤ MAX_BONES := by
  unfold loadScene at hl
  split at hl
  · rename_i hc
    cases hl
    exact ⟨rfl, hc.1⟩
  · cases hl

/-- C7: the matrix count `main` passes to the upload of `u_bone_transf` never exceeds
`MAX_BONES` = 100, and an asset with more than 100 bones is refused by `loadScene`: `main`
receives the sentinel scene and uploads nothing. -/
theorem upload_within_max_bones (asset : List Bone) (modifier : SkeletonModifier) :
    MAX_BONES = 100 ∧
      (∀ n, uploadCount (loadScene asset) modifier = some n → n ≤ MAX_BONES) ∧
      (MAX_BONES < asset.length →
        loadScene asset = Scene.error ∧ uploadCount (loadScene asset) modifier = none) := by
  refine ⟨rfl, ?_, ?_⟩
  · intro n hn
    cases hl : loadScene asset with
    | error => simp [hl, uploadCount, Scene.getSkeletonTransform] at hn
    | loaded h =>
      obtain ⟨rfl, hle⟩ := loadScene_loaded asset h hl
      simp only [hl, uploadCount, Scene.getSkeletonTransform] at hn
      split at hn
      · simp only [Option.some.injEq] at hn
        rw [← hn, compose_length]
        exact hle
      · cases hn
  · intro hgt
    have herr : loadScene asset = Scene.error := by
      unfold loadScene
      rw [if_neg]
      intro hc
      exact absurd hc.1 (by omega)
    exact ⟨herr, by simp [herr, uploadCount, Scene.getSkeletonTransform]⟩

/-- C7 at the five-bone example, which is loaded and uploaded as 5 matrices, and at an
asset of 101 bones, which is refused. -/
theorem upload_within_max_bones_witness :
    (uploadCount (loadScene sampleHand) sampleModifier = some 5 ∧ 5 ≤ MAX_BONES) ∧
      (MAX_BONES < crowdedAsset.length ∧ loadScene crowdedAsset = Scene.error ∧
        uploadCount (loadScene crowdedAsset) sampleModifier = none) := by
  have hload : loadScene sampleHand = Scene.loaded sampleHand := by
    unfold loadScene
    rw [if_pos]
    exact ⟨by simp [sampleHand, MAX_BONES], by decide, by decide⟩
  have hup : uploadCount (loadScene sampleHand) sampleModifier = some 5 := by
    rw [hload]
    have hlen := compose_length sampleHand sampleModifier
    have h5 : sampleHand.length = 5 := rfl
    rw [h5] at hlen
    simp only [uploadCount, Scene.getSkeletonTransform]
    cases hc : compose sampleHand sampleModifier with
    | nil => rw [hc] at hlen; cases hlen
    | cons M rest =>
      rw [hc] at hlen
      simp only [List.isEmpty_cons, Bool.not_false, if_true, hlen]
  have hbig : MAX_BONES < crowdedAsset.length := by simp [crowdedAsset, MAX_BONES]
  exact ⟨⟨hup, (upload_within_max_bones sampleHand sampleModifier).2.1 5 hup⟩, hbig,
    (upload_within_max_bones crowdedAsset sampleModifier).2.2 hbig⟩

end SkeletalMesh

namespace Hand

open SkeletalAnimation (Mat4 Vec3)
open SkeletalMesh (SkeletonModifier)

theorem set_apply (m : SkeletonModifier) (k : String) (v : Mat4) (n : String) :
    (m.set k v) n = if n = k then some v else m n := rfl

theorem keeps_onAction (n : String) (current_action k : Int)
    (block : SkeletonModifier → SkeletonModifier) (hb : KeepsAgreement n block) :
    KeepsAgreement n (onAction current_action k block) := by
  intro m₁ m₂ h
  unfold onAction
  split
  · exact hb m₁ m₂ h
  · exact h

theorem keeps_action10 (lib : Lib) (t : ℚ) (n : String) : KeepsAgreement n (action10 lib t) := by
  intro m₁ m₂ h
  simp only [action10, set_apply, ite_apply, h]

theorem keeps_action11 (lib : Lib) (t : ℚ) (n : String) : KeepsAgreement n (action11 lib t) := by
  intro m₁ m₂ h
  simp only [action11, set_apply, h]

theorem keeps_action5 (n : String) : KeepsAgreement n action5 := by
  intro m₁ m₂ h
  simp only [action5, set_apply, h]

theorem keeps_action0 (lib : Lib) (n : String) : KeepsAgreement n (action0 lib) := by
  intro m₁ m₂ h
  simp only [action0, set_apply, h]

theorem keeps_action1 (lib : Lib) (n : String) : KeepsAgreement n (action1 lib) := by
  intro m₁ m₂ h
  simp only [action1, set_apply, h]

theorem keeps_action2 (lib : Lib) (n : String) : KeepsAgreement n (action2 lib) := by
  intro m₁ m₂ h
  simp only [action2, set_apply, h]

theorem keeps_action3 (lib : Lib) (n : String) : KeepsAgreement n (action3 lib) := by
  intro m₁ m₂ h
  simp only [action3, set_apply, h]

theorem keeps_action4 (lib : Lib) (n : String) : KeepsAgreement n (action4 lib) := by
  intro m₁ m₂ h
  simp only [action4, set_apply, h]

theorem keeps_action6 (lib : Lib) (n : String) : KeepsAgreement n (action6 lib) := by
  intro m₁ m₂ h
  simp only [action6, set_apply, h]

theorem keeps_action7 (lib : Lib) (n : String) : KeepsAgreement n (action7 lib) := by
  intro m₁ m₂ h
  simp only [action7, set_apply, h]

theorem keeps_action8 (lib : Lib) (n : String) : KeepsAgreement n (action8 lib) := by
  intro m₁ m₂ h
  simp only [action8, set_apply, h]

theorem keeps_action9 (lib : Lib) (n : String) : KeepsAgreement n (action9 lib) := by
  intro m₁ m₂ h
  simp only [action9, set_apply, h]

theorem poseUpdate_eq (lib : Lib) (current_action : Int) (passed_time : ℚ)
    (m : SkeletonModifier) :
    poseUpdate lib current_action passed_time m =
      onAction current_action 11 (action11 lib passed_time)
      (onAction current_action 9 (action9 lib)
      (onAction current_action 8 (action8 lib)
      (onAction current_action 7 (action7 lib)
      (onAction current_action 6 (action6 lib)
      (onAction current_action 5 action5
      (onAction current_action 4 (action4 lib)
      (onAction current_action 3 (action3 lib)
      (onAction current_action 2 (action2 lib)
      (onAction current_action 1 (action1 lib)
      (onAction current_action 0 (action0 lib)
      (onAction current_action 10 (action10 lib passed_time)
        ((resetFingers m).set "metacarpals"
          (lib.rotate identity (metacarpals_angle passed_time) (fvec3 1.0 0.0 0.0)))))))))))))) :=
  rfl

theorem reset_agree (v : Mat4) (m₁ m₂ : SkeletonModifier) (n : String) (hn : n ∈ animatedBones) :
    ((resetFingers m₁).set "metacarpals" v) n = ((resetFingers m₂).set "metacarpals" v) n := by
  simp only [animatedBones, List.mem_cons, List.mem_singleton, List.not_mem_nil, or_false] at hn
  rcases hn with rfl | rfl | rfl | rfl | rfl | rfl | rfl | rfl | rfl | rfl | rfl | rfl | rfl |
    rfl | rfl | rfl <;> simp [resetFingers, set_apply]

/-- C8: after the per-frame pose update (`resetFingers`, the metacarpals assignment, the
action blocks) the entry of every bone name the animation code writes (metacarpals and the
proximal, intermediate and distal phalanges of the five fingers) is the same whatever the
map held before: it depends on `current_action` and `passed_time` only. -/
theorem poseUpdate_no_persistence (lib : Lib) (current_action : Int) (passed_time : ℚ)
    (m₁ m₂ : SkeletonModifier) (n : String) (hn : n ∈ animatedBones) :
    poseUpdate lib current_action passed_time m₁ n =
      poseUpdate lib current_action passed_time m₂ n := by
  rw [poseUpdate_eq, poseUpdate_eq]
  apply keeps_onAction n _ _ _ (keeps_action11 lib passed_time n)
  apply keeps_onAction n _ _ _ (keeps_action9 lib n)
  apply keeps_onAction n _ _ _ (keeps_action8 lib n)
  apply keeps_onAction n _ _ _ (keeps_action7 lib n)
  apply keeps_onAction n _ _ _ (keeps_action6 lib n)
  apply keeps_onAction n _ _ _ (keeps_action5 n)
  apply keeps_onAction n _ _ _ (keeps_action4 lib n)
  apply keeps_onAction n _ _ _ (keeps_action3 lib n)
  apply keeps_onAction n _ _ _ (keeps_action2 lib n)
  apply keeps_onAction n _ _ _ (keeps_action1 lib n)
  apply keeps_onAction n _ _ _ (keeps_action0 lib n)
  apply keeps_onAction n _ _ _ (keeps_action10 lib passed_time n)
  exact reset_agree _ m₁ m₂ n hn

/-- C8 at a quarter of a second into the default action 10, when the middle finger has not
started to move: a bent middle finger left in the map by an earlier frame does not
survive the update. -/
theorem poseUpdate_no_persistence_witness :
    "middle_proximal_phalange" ∈ animatedBones ∧
      staleModifier "middle_proximal_phalange" ≠ SkeletonModifier.empty "middle_proximal_phalange" ∧
      poseUpdate sampleLib 10 0.25 staleModifier "middle_proximal_phalange" =
        poseUpdate sampleLib 10 0.25 SkeletonModifier.empty "middle_proximal_phalange" :=
  ⟨by simp [animatedBones], by simp [staleModifier, SkeletonModifier.set, SkeletonModifier.empty],
    poseUpdate_no_persistence sampleLib 10 0.25 staleModifier SkeletonModifier.empty
      "middle_proximal_phalange" (by simp [animatedBones])⟩

end Hand

namespace TextureImage

theorem deref_assign_same (s : Store) (r : TexRef) (t : Texture) : (s.assign r t).deref r = t := by
  cases r <;> simp [Store.assign, Store.deref]

theorem assign_allTexture (s : Store) (r : TexRef) (t : Texture) :
    (s.assign r t).allTexture = s.allTexture := by
  cases r <;> rfl

theorem assign_next (s : Store) (r : TexRef) (t : Texture) : (s.assign r t).next = s.next := by
  cases r <;> rfl

theorem assign_heap_error (s : Store) (a : Nat) (t : Texture) :
    (s.assign (TexRef.heap a) t).error = s.error := rfl

theorem bind_fst (s : Store) (r : TexRef) (ch : Nat) (gl : GLState) :
    (bind s r ch gl).1 = (s.deref r).available := by
  unfold bind
  cases (s.deref r).available <;> simp

theorem append_ne_empty (a suffix : String) (h : suffix ≠ "") : a ++ suffix ≠ "" := by
  intro hc
  have hlen := congrArg String.length hc
  rw [String.length_append] at hlen
  have h0 : suffix.length = 0 := by
    have : ("" : String).length = 0 := rfl
    omega
  apply h
  apply String.ext
  exact List.length_eq_zero.mp h0

theorem testSuffixes_eq_empty (env : Env) (n : String) (l : List String)
    (hl : ∀ suffix ∈ l, suffix ≠ "") :
    testSuffixes env n l = "" ↔ ∀ suffix ∈ l, env.fopen (n ++ suffix) = false := by
  induction l with
  | nil => simp [testSuffixes]
  | cons x rest ih =>
    have ihr := ih (fun suffix hs => hl suffix (List.mem_cons_of_mem _ hs))
    simp only [testSuffixes, List.forall_mem_cons]
    cases hx : env.fopen (n ++ x) with
    | true =>
      simp only [if_true, Bool.true_eq_false, false_and, iff_false]
      exact append_ne_empty n x (hl x (List.mem_cons_self _ _))
    | false => simpa using ihr

theorem resolveFilename_eq_none (env : Env) (n f : String) :
    resolveFilename env n f = none ↔
      (f = "" ∧ ∀ suffix ∈ support_suffix, env.fopen (n ++ suffix) = false) := by
  have hsuf : ∀ suffix ∈ support_suffix, suffix ≠ "" := by
    intro suffix hs
    simp only [support_suffix, List.mem_cons, List.mem_singleton, List.not_mem_nil, or_false] at hs
    rcases hs with rfl | rfl | rfl | rfl | rfl <;> decide
  unfold resolveFilename
  by_cases hf : f = ""
  · subst hf
    have key := testSuffixes_eq_empty env n support_suffix hsuf
    by_cases hfound : testSuffixes env n support_suffix = ""
    · have hemp : ("" : String).isEmpty = true := rfl
      have hall := key.mp hfound
      simp only [testAllSuffix, hfound, hemp, Bool.true_or, if_true, true_and]
      exact ⟨fun _ => hall, fun _ => trivial⟩
    · have hne : (testSuffixes env n support_suffix).isEmpty = false := by
        rw [Bool.eq_false_iff]
        intro hc
        exact hfound ((String.isEmpty_iff _).mp hc)
      have hnot : ¬ ∀ suffix ∈ support_suffix, env.fopen (n ++ suffix) = false :=
        fun hall => hfound (key.mpr hall)
      have hemp : ("" : String).isEmpty = true := rfl
      simp [testAllSuffix, hne, hnot, hemp]
  · have : ¬ (f.isEmpty || f == "") = true := by
      simp [String.isEmpty_iff, hf]
    simp [this, hf]

end TextureImage

namespace TextureImage

theorem decodeInto_fst (env : Env) (s : Store) (target : TexRef) (n f : String) :
    (decodeInto env s target n f).1 =
      if env.stbi_load f = none ∨ env.glGetError = true then TexRef.error else target := by
  unfold decodeInto
  cases hd : env.stbi_load f with
  | none => simp
  | some whc =>
    obtain ⟨w, h, c⟩ := whc
    cases hg : env.glGetError <;> simp

theorem decodeInto_available (env : Env) (s : Store) (target : TexRef) (n f : String)
    (hne : (decodeInto env s target n f).1 ≠ TexRef.error) :
    ((decodeInto env s target n f).2.deref (decodeInto env s target n f).1).available = true := by
  unfold decodeInto at hne ⊢
  cases hd : env.stbi_load f with
  | none => simp [hd] at hne
  | some whc =>
    obtain ⟨w, h, c⟩ := whc
    cases hg : env.glGetError with
    | true => simp [hd, hg] at hne
    | false => simp [deref_assign_same]

theorem decodeInto_allTexture (env : Env) (s : Store) (target : TexRef) (n f : String) :
    (decodeInto env s target n f).2.allTexture = s.allTexture := by
  unfold decodeInto
  cases hd : env.stbi_load f with
  | none => simp [assign_allTexture]
  | some whc =>
    obtain ⟨w, h, c⟩ := whc
    cases hg : env.glGetError <;> simp [assign_allTexture]

theorem decodeInto_next (env : Env) (s : Store) (target : TexRef) (n f : String) :
    (decodeInto env s target n f).2.next = s.next := by
  unfold decodeInto
  cases hd : env.stbi_load f with
  | none => simp [assign_next]
  | some whc =>
    obtain ⟨w, h, c⟩ := whc
    cases hg : env.glGetError <;> simp [assign_next]

theorem decodeInto_error (env : Env) (s : Store) (a : Nat) (n f : String) :
    (decodeInto env s (TexRef.heap a) n f).2.error = s.error := by
  unfold decodeInto
  cases hd : env.stbi_load f with
  | none => simp [assign_heap_error]
  | some whc =>
    obtain ⟨w, h, c⟩ := whc
    cases hg : env.glGetError <;> simp [assign_heap_error]

theorem clear_allTexture (s : Store) (r : TexRef) : (clear s r).allTexture = s.allTexture :=
  assign_allTexture _ _ _

theorem clear_next (s : Store) (r : TexRef) : (clear s r).next = s.next := assign_next _ _ _

theorem wellFormed_clear (s : Store) (r : TexRef) (hs : WellFormed s) : WellFormed (clear s r) := by
  refine ⟨?_, ?_⟩
  · intro n q hq
    rw [clear_allTexture] at hq
    rw [clear_next]
    exact hs.1 n q hq
  · cases r with
    | error => simp [clear, Store.assign]
    | heap a => exact hs.2

theorem wellFormed_decodeInto (env : Env) (s : Store) (a : Nat) (n f : String)
    (hs : WellFormed s) : WellFormed (decodeInto env s (TexRef.heap a) n f).2 := by
  refine ⟨?_, ?_⟩
  · intro k q hq
    rw [decodeInto_allTexture] at hq
    rw [decodeInto_next]
    exact hs.1 k q hq
  · rw [decodeInto_error]
    exact hs.2

theorem wellFormed_alloc (s : Store) (hs : WellFormed s) : WellFormed s.alloc := by
  refine ⟨?_, hs.2⟩
  intro n q hq
  obtain ⟨a, rfl, ha⟩ := hs.1 n q hq
  exact ⟨a, rfl, Nat.lt_succ_of_lt ha⟩

theorem loadTexture_unresolved (env : Env) (s : Store) (n f : String)
    (hres : resolveFilename env n f = none) : loadTexture env s n f = (TexRef.error, s) := by
  unfold loadTexture
  simp only [hres]

theorem loadTexture_unopened (env : Env) (s : Store) (n f file : String)
    (hres : resolveFilename env n f = some file) (hopen : env.fopen file = false) :
    loadTexture env s n f = (TexRef.error, s) := by
  unfold loadTexture
  simp only [hres, hopen, Bool.not_false, if_true]

theorem loadTexture_known (env : Env) (s : Store) (n f file : String) (target : TexRef)
    (hres : resolveFilename env n f = some file) (hopen : env.fopen file = true)
    (hmap : s.allTexture n = some target) :
    loadTexture env s n f =
      if ((s.alloc.deref target).filename == file && (s.alloc.deref target).available) = true then
        (target, s.alloc)
      else decodeInto env (clear s.alloc target) target n file := by
  have hmap' : s.alloc.allTexture n = some target := hmap
  unfold loadTexture
  simp only [hres, hopen, Bool.not_true, Bool.false_eq_true, if_false, hmap']

theorem loadTexture_fresh (env : Env) (s : Store) (n f file : String)
    (hres : resolveFilename env n f = some file) (hopen : env.fopen file = true)
    (hmap : s.allTexture n = none) :
    loadTexture env s n f =
      decodeInto env
        { s.alloc with
          allTexture := fun k => if k = n then some (TexRef.heap s.next) else s.alloc.allTexture k }
        (TexRef.heap s.next) n file := by
  have hmap' : s.alloc.allTexture n = none := hmap
  unfold loadTexture
  simp only [hres, hopen, Bool.not_true, Bool.false_eq_true, if_false, hmap']

theorem wellFormed_loadTexture (env : Env) (s : Store) (n f : String) (hs : WellFormed s) :
    WellFormed (loadTexture env s n f).2 := by
  cases hres : resolveFilename env n f with
  | none => rw [loadTexture_unresolved env s n f hres]; exact hs
  | some file =>
    cases hopen : env.fopen file with
    | false => rw [loadTexture_unopened env s n f file hres hopen]; exact hs
    | true =>
      have hal := wellFormed_alloc s hs
      cases hmap : s.allTexture n with
      | some target =>
        obtain ⟨a, rfl, _⟩ := hs.1 n target hmap
        rw [loadTexture_known env s n f file _ hres hopen hmap]
        split
        · exact hal
        · exact wellFormed_decodeInto env _ a n file (wellFormed_clear _ _ hal)
      | none =>
        rw [loadTexture_fresh env s n f file hres hopen hmap]
        apply wellFormed_decodeInto
        refine ⟨?_, hal.2⟩
        intro k q hq
        simp only at hq
        split at hq
        · cases hq
          exact ⟨s.next, rfl, by simp [Store.alloc]⟩
        · exact hal.1 k q hq

theorem wellFormed_of_reachable (s : Store) (hs : Reachable s) : WellFormed s := by
  induction hs with
  | init => exact ⟨fun n r h => by simp [Store.init] at h, rfl⟩
  | loadTexture env s n f _ ih => exact wellFormed_loadTexture env s n f ih
  | unloadTexture s n _ ih =>
    refine ⟨?_, ih.2⟩
    intro k q hq
    simp only [unloadTexture] at hq
    split at hq
    · cases hq
    · exact ih.1 k q hq
  | getTexture s n _ ih =>
    unfold getTexture
    split <;> exact ih
  | clear s r _ ih => exact wellFormed_clear s r ih

end TextureImage

namespace TextureImage

theorem loadFails_of_resolved (env : Env) (s : Store) (n f file : String)
    (hres : resolveFilename env n f = some file) :
    LoadFailsUnlessCached env s n f ↔
      (env.fopen file = false ∨
        (¬ AlreadyLoaded s n file ∧ (env.stbi_load file = none ∨ env.glGetError = true))) := by
  unfold LoadFailsUnlessCached
  constructor
  · rintro (hnone | ⟨file', hfile', h⟩)
    · rw [(resolveFilename_eq_none env n f).mpr hnone] at hres
      cases hres
    · rw [hres] at hfile'
      cases hfile'
      exact h
  · intro h
    exact Or.inr ⟨file, hres, h⟩

theorem loadTexture_error_iff (env : Env) (s : Store) (n f : String) (hs : WellFormed s) :
    (loadTexture env s n f).1 = TexRef.error ↔ LoadFailsUnlessCached env s n f := by
  cases hres : resolveFilename env n f with
  | none =>
    rw [loadTexture_unresolved env s n f hres]
    exact ⟨fun _ => Or.inl ((resolveFilename_eq_none env n f).mp hres), fun _ => rfl⟩
  | some file =>
    rw [loadFails_of_resolved env s n f file hres]
    cases hopen : env.fopen file with
    | false =>
      rw [loadTexture_unopened env s n f file hres hopen]
      exact ⟨fun _ => Or.inl rfl, fun _ => rfl⟩
    | true =>
      simp only [Bool.true_eq_false, false_or]
      cases hmap : s.allTexture n with
      | none =>
        rw [loadTexture_fresh env s n f file hres hopen hmap, decodeInto_fst]
        have hnot : ¬ AlreadyLoaded s n file := by
          rintro ⟨r, hr, _⟩
          rw [hmap] at hr
          cases hr
        by_cases hd : env.stbi_load file = none ∨ env.glGetError = true
        · simp [hd, hnot]
        · simp [hd]
      | some target =>
        obtain ⟨a, rfl, ha⟩ := hs.1 n target hmap
        rw [loadTexture_known env s n f file _ hres hopen hmap]
        have hderef : s.alloc.deref (TexRef.heap a) = s.deref (TexRef.heap a) := by
          simp only [Store.alloc, Store.deref]
          rw [if_neg (by omega)]
        rw [hderef]
        have hal : AlreadyLoaded s n file ↔
            ((s.deref (TexRef.heap a)).filename == file && (s.deref (TexRef.heap a)).available) = true := by
          simp only [AlreadyLoaded, Bool.and_eq_true, beq_iff_eq]
          constructor
          · rintro ⟨r, hr, h1, h2⟩
            rw [hmap] at hr
            cases hr
            exact ⟨h1, h2⟩
          · rintro ⟨h1, h2⟩
            exact ⟨_, hmap, h1, h2⟩
        rw [hal]
        split
        · rename_i hc
          simp [hc]
        · rename_i hc
          rw [decodeInto_fst]
          by_cases hd : env.stbi_load file = none ∨ env.glGetError = true
          · simp [hd, hc]
          · simp [hd]

theorem loadTexture_available (env : Env) (s : Store) (n f : String)
    (hne : (loadTexture env s n f).1 ≠ TexRef.error) :
    ((loadTexture env s n f).2.deref (loadTexture env s n f).1).available = true := by
  cases hres : resolveFilename env n f with
  | none => rw [loadTexture_unresolved env s n f hres] at hne; exact absurd rfl hne
  | some file =>
    cases hopen : env.fopen file with
    | false => rw [loadTexture_unopened env s n f file hres hopen] at hne; exact absurd rfl hne
    | true =>
      cases hmap : s.allTexture n with
      | none =>
        rw [loadTexture_fresh env s n f file hres hopen hmap] at hne ⊢
        exact decodeInto_available _ _ _ _ _ hne
      | some target =>
        rw [loadTexture_known env s n f file _ hres hopen hmap] at hne ⊢
        split
        · rename_i hc
          simp only [Bool.and_eq_true] at hc
          exact hc.2
        · rename_i hc
          rw [if_neg hc] at hne
          exact decodeInto_available _ _ _ _ _ hne

/-- C9 (amended): in every reachable state, `loadTexture` returns the error texture exactly
when no file with a supported suffix is found for an empty file name, or the file cannot be
opened, or, unless the texture is registered already as available and loaded from that
file, the image cannot be decoded or a GL error is raised; and every texture it returns
other than the error texture is available, so `bind` on it returns true. -/
theorem loadTexture_error_iff_fails_unless_cached (env : Env) (s : Store)
    (_name _filename : String) (hs : Reachable s) :
    ((loadTexture env s _name _filename).1 = TexRef.error ↔
        LoadFailsUnlessCached env s _name _filename) ∧
      ((loadTexture env s _name _filename).1 ≠ TexRef.error →
        ((loadTexture env s _name _filename).2.deref
            (loadTexture env s _name _filename).1).available = true ∧
          ∀ textureChannel gl,
            (bind (loadTexture env s _name _filename).2 (loadTexture env s _name _filename).1
              textureChannel gl).1 = true) := by
  refine ⟨loadTexture_error_iff env s _name _filename (wellFormed_of_reachable s hs), ?_⟩
  intro hne
  have hav := loadTexture_available env s _name _filename hne
  exact ⟨hav, fun ch gl => by rw [bind_fst, hav]⟩

/-- C10: `getTexture` returns the error texture if no texture is registered under the name,
and otherwise exactly the registered texture object; it leaves the state, the registry
included, as it was. -/
theorem getTexture_registered_or_error (s : Store) (_name : String) :
    (s.allTexture _name = none → (getTexture s _name).1 = TexRef.error) ∧
      (∀ r, s.allTexture _name = some r → (getTexture s _name).1 = r) ∧
      (getTexture s _name).2 = s ∧ (getTexture s _name).2.allTexture = s.allTexture := by
  unfold getTexture
  cases h : s.allTexture _name with
  | none => simp
  | some r => simp

end TextureImage

namespace TextureImage

theorem sample_resolve : resolveFilename sampleEnv "hand" "" = some "hand.png" := by
  decide

theorem sample_load_fst : (loadTexture sampleEnv Store.init "hand" "").1 = TexRef.heap 0 := by
  rw [loadTexture_fresh sampleEnv Store.init "hand" "" "hand.png" sample_resolve (by decide) rfl,
    decodeInto_fst]
  decide

theorem loadedStore_hand : loadedStore.allTexture "hand" = some (TexRef.heap 0) := by
  unfold loadedStore
  rw [loadTexture_fresh sampleEnv Store.init "hand" "" "hand.png" sample_resolve (by decide) rfl,
    decodeInto_allTexture]
  simp [Store.init]

theorem loadedStore_foot : loadedStore.allTexture "foot" = none := by
  unfold loadedStore
  rw [loadTexture_fresh sampleEnv Store.init "hand" "" "hand.png" sample_resolve (by decide) rfl,
    decodeInto_allTexture]
  simp [Store.init, Store.alloc]

theorem loadedStore_reachable : Reachable loadedStore :=
  Reachable.loadTexture sampleEnv Store.init "hand" "" Reachable.init

theorem broken_resolve : resolveFilename brokenEnv "hand" "hand.png" = some "hand.png" := by
  decide

theorem loadedStore_cached : AlreadyLoaded loadedStore "hand" "hand.png" := by
  refine ⟨TexRef.heap 0, loadedStore_hand, ?_, ?_⟩
  · unfold loadedStore
    rw [loadTexture_fresh sampleEnv Store.init "hand" "" "hand.png" sample_resolve (by decide) rfl]
    simp [decodeInto, sampleEnv, Store.assign, Store.deref, Store.init]
  · unfold loadedStore
    rw [loadTexture_fresh sampleEnv Store.init "hand" "" "hand.png" sample_resolve (by decide) rfl]
    simp [decodeInto, sampleEnv, Store.assign, Store.deref, Store.init]

theorem broken_reload_fst :
    (loadTexture brokenEnv loadedStore "hand" "hand.png").1 = TexRef.heap 0 := by
  obtain ⟨r, hr, hfile, hav⟩ := loadedStore_cached
  rw [loadedStore_hand] at hr
  cases hr
  have hderef : loadedStore.alloc.deref (TexRef.heap 0) = loadedStore.deref (TexRef.heap 0) := by
    have hnext : loadedStore.next = 1 := by
      unfold loadedStore
      rw [loadTexture_fresh sampleEnv Store.init "hand" "" "hand.png" sample_resolve (by decide)
        rfl, decodeInto_next]
      rfl
    simp only [Store.alloc, Store.deref, hnext]
    rw [if_neg (by decide)]
  rw [loadTexture_known brokenEnv loadedStore "hand" "hand.png" "hand.png" _ broken_resolve
    (by decide) loadedStore_hand, hderef, hfile, hav]
  simp

/-- C9 (as stated, refuted): in the reachable state in which "hand" is registered as loaded
from "hand.png", a call `loadTexture("hand", "hand.png")` made when "hand.png" opens but
can no longer be decoded is a load that fails by the causes the claim lists, and yet it
returns the registered texture, not the error texture (lines 127-129). -/
theorem c9_counterexample :
    Reachable loadedStore ∧ LoadFails brokenEnv "hand" "hand.png" ∧
      (loadTexture brokenEnv loadedStore "hand" "hand.png").1 = TexRef.heap 0 ∧
      (loadTexture brokenEnv loadedStore "hand" "hand.png").1 ≠ TexRef.error ∧
      ¬ ((loadTexture brokenEnv loadedStore "hand" "hand.png").1 = TexRef.error ↔
        LoadFails brokenEnv "hand" "hand.png") := by
  have hfails : LoadFails brokenEnv "hand" "hand.png" :=
    Or.inr ⟨"hand.png", broken_resolve, Or.inr (Or.inl rfl)⟩
  have hne : (loadTexture brokenEnv loadedStore "hand" "hand.png").1 ≠ TexRef.error := by
    rw [broken_reload_fst]
    intro h
    cases h
  exact ⟨loadedStore_reachable, hfails, broken_reload_fst, hne, fun h => hne (h.mpr hfails)⟩

/-- C9 (amended) at the reload of "hand" from "hand.png" when the file opens but no longer
decodes: the texture is registered as loaded from that file, so the load does not fail and
the registered texture is returned, available. -/
theorem loadTexture_error_iff_fails_unless_cached_witness :
    Reachable loadedStore ∧ AlreadyLoaded loadedStore "hand" "hand.png" ∧
      ¬ LoadFailsUnlessCached brokenEnv loadedStore "hand" "hand.png" ∧
      ((loadTexture brokenEnv loadedStore "hand" "hand.png").2.deref
          (loadTexture brokenEnv loadedStore "hand" "hand.png").1).available = true :=
  have hthm := loadTexture_error_iff_fails_unless_cached brokenEnv loadedStore "hand" "hand.png"
    loadedStore_reachable
  have hne : (loadTexture brokenEnv loadedStore "hand" "hand.png").1 ≠ TexRef.error := by
    rw [broken_reload_fst]
    intro h
    cases h
  ⟨loadedStore_reachable, loadedStore_cached, fun hf => hne (hthm.1.mpr hf), (hthm.2 hne).1⟩

/-- C10 in the state after "hand" was loaded: "hand" yields the registered object, "foot",
which is not registered, yields the error texture. -/
theorem getTexture_registered_or_error_witness :
    (loadedStore.allTexture "hand" = some (TexRef.heap 0) ∧
        (getTexture loadedStore "hand").1 = TexRef.heap 0) ∧
      (loadedStore.allTexture "foot" = none ∧ (getTexture loadedStore "foot").1 = TexRef.error) :=
  ⟨⟨loadedStore_hand,
      (getTexture_registered_or_error loadedStore "hand").2.1 _ loadedStore_hand⟩,
    ⟨loadedStore_foot, (getTexture_registered_or_error loadedStore "foot").1 loadedStore_foot⟩⟩

end TextureImage

namespace SkeletalAnimation

theorem adjust_gt_iff (w : Fin 4 → ℚ) : adjust_factor w > 1e-3 ↔ weightSum w > 0.004 := by
  rw [adjust_factor_eq]
  constructor <;> intro h <;> norm_num at h ⊢ <;> linarith

theorem bone_transform_eq_four_smul (u : Uniforms) (a : VertexIn)
    (h : weightSum a.in_bone_weight > 0.004) :
    bone_transform u a = (4 : ℚ) • normalizedBlend u a := by
  have hgt := (adjust_gt_iff a.in_bone_weight).mpr h
  rw [bone_transform_of_gt u a hgt, normalizedBlend, Finset.smul_sum]
  refine Finset.sum_congr rfl (fun i _ => ?_)
  rw [smul_smul]
  congr 1
  have hne : weightSum a.in_bone_weight ≠ 0 := by
    intro h0
    rw [h0] at h
    norm_num at h
  field_simp
  ring

theorem normalizedBlend_affine (u : Uniforms) (a : VertexIn)
    (hne : weightSum a.in_bone_weight ≠ 0)
    (haff : ∀ i, IsAffine (u.u_bone_transf (a.in_bone_index i))) :
    IsAffine (normalizedBlend u a) := by
  have h0 := haff 0
  have h1 := haff 1
  have h2 := haff 2
  have h3 := haff 3
  unfold IsAffine at h0 h1 h2 h3 ⊢
  simp only [normalizedBlend, Fin.sum_univ_four, Matrix.add_apply, Matrix.smul_apply, smul_eq_mul,
    h0.1, h0.2.1, h0.2.2.1, h0.2.2.2, h1.1, h1.2.1, h1.2.2.1, h1.2.2.2, h2.1, h2.2.1, h2.2.2.1,
    h2.2.2.2, h3.1, h3.2.1, h3.2.2.1, h3.2.2.2, mul_zero, mul_one, add_zero]
  refine ⟨trivial, trivial, trivial, ?_⟩
  unfold weightSum at hne ⊢
  field_simp

theorem affine_mulVec_w (M : Mat4) (hM : IsAffine M) (p : Vec3) :
    Matrix.mulVec M (vec4 p 1) 3 = 1 := by
  obtain ⟨h0, h1, h2, h3⟩ := hM
  simp [Matrix.mulVec, Matrix.dotProduct, Fin.sum_univ_four, vec4, h0, h1, h2, h3]

end SkeletalAnimation

namespace SkeletalAnimation

/-- C13: when the weight sum exceeds 0.004 and the four referenced bone matrices are affine,
the shader's `bone_transform` is 4 times the normalized blend `N`; `bone_transform * (p, 1)`
has w-component 4 (and `N * (p, 1)` has w-component 1), its x, y, z divided by w are those
of `N * (p, 1)`, and `gl_Position` is 4 times `u_mvp * (N * (p, 1))`, the same projective
point.  Non-negativity of the weights is not needed. -/
theorem bone_transform_projectively_normalized (u : Uniforms) (a : VertexIn)
    (hsum : weightSum a.in_bone_weight > 0.004)
    (haff : ∀ i, IsAffine (u.u_bone_transf (a.in_bone_index i))) :
    bone_transform u a = (4 : ℚ) • normalizedBlend u a ∧
      Matrix.mulVec (bone_transform u a) (vec4 a.in_position 1) 3 = 4 ∧
      Matrix.mulVec (normalizedBlend u a) (vec4 a.in_position 1) 3 = 1 ∧
      (∀ k : Fin 4,
        Matrix.mulVec (bone_transform u a) (vec4 a.in_position 1) k /
            Matrix.mulVec (bone_transform u a) (vec4 a.in_position 1) 3 =
          Matrix.mulVec (normalizedBlend u a) (vec4 a.in_position 1) k) ∧
      SameProjectivePoint (main u a).gl_Position
        (Matrix.mulVec u.u_mvp (Matrix.mulVec (normalizedBlend u a) (vec4 a.in_position 1))) := by
  have hne : weightSum a.in_bone_weight ≠ 0 := by
    intro h0
    rw [h0] at hsum
    norm_num at hsum
  have hbt := bone_transform_eq_four_smul u a hsum
  have hN := affine_mulVec_w _ (normalizedBlend_affine u a hne haff) a.in_position
  have hmul : Matrix.mulVec (bone_transform u a) (vec4 a.in_position 1) =
      (4 : ℚ) • Matrix.mulVec (normalizedBlend u a) (vec4 a.in_position 1) := by
    rw [hbt, Matrix.smul_mulVec_assoc]
  have hw : Matrix.mulVec (bone_transform u a) (vec4 a.in_position 1) 3 = 4 := by
    rw [hmul, Pi.smul_apply, hN]
    norm_num
  refine ⟨hbt, hw, hN, ?_, ?_⟩
  · intro k
    rw [hw, hmul, Pi.smul_apply, smul_eq_mul]
    field_simp
  · refine ⟨4, by norm_num, ?_⟩
    have h1 : (1.0 : ℚ) = 1 := by norm_num
    simp only [main, h1]
    rw [← Matrix.mulVec_mulVec, hmul, Matrix.mulVec_smul]

/-- C13 at the weights (0.3, 0.3, 0.3, 0.0), whose sum is 0.9, on translation matrices. -/
theorem bone_transform_projectively_normalized_witness :
    weightSum sampleVertex.in_bone_weight > 0.004 ∧
      (∀ i, IsAffine (affineUniforms.u_bone_transf (sampleVertex.in_bone_index i))) ∧
      Matrix.mulVec (bone_transform affineUniforms sampleVertex) (vec4 sampleVertex.in_position 1) 3
        = 4 ∧
      SameProjectivePoint (main affineUniforms sampleVertex).gl_Position
        (Matrix.mulVec affineUniforms.u_mvp
          (Matrix.mulVec (normalizedBlend affineUniforms sampleVertex)
            (vec4 sampleVertex.in_position 1))) :=
  have hsum : weightSum sampleVertex.in_bone_weight > 0.004 := by
    norm_num [weightSum, sampleVertex]
  have haff : ∀ i, IsAffine (affineUniforms.u_bone_transf (sampleVertex.in_bone_index i)) := by
    intro i
    simp [IsAffine, affineUniforms, Matrix.vecHead, Matrix.vecTail]
  ⟨hsum, haff,
    (bone_transform_projectively_normalized affineUniforms sampleVertex hsum haff).2.1,
    (bone_transform_projectively_normalized affineUniforms sampleVertex hsum haff).2.2.2.2⟩

/-- C14: the identity fallback (no blending, no division, `bone_transform` left at the
identity) is taken if and only if the sum of the four weights is at most 0.004; so for a
weight sum in (0.001, 0.004] the shader's `bone_transform` is the identity. -/
theorem identity_fallback_iff (u : Uniforms) (a : VertexIn) :
    (blend u a = { bone_transform := 1, divisors := [] } ↔ weightSum a.in_bone_weight ≤ 0.004) ∧
      (0.001 < weightSum a.in_bone_weight ∧ weightSum a.in_bone_weight ≤ 0.004 →
        bone_transform u a = 1 ∧ (blend u a).divisors = []) := by
  have hiff : ¬ adjust_factor a.in_bone_weight > 1e-3 ↔ weightSum a.in_bone_weight ≤ 0.004 := by
    rw [adjust_gt_iff, not_lt]
  refine ⟨⟨?_, ?_⟩, ?_⟩
  · intro hb
    by_contra hgt
    have hgt' : adjust_factor a.in_bone_weight > 1e-3 := by
      by_contra hn
      exact hgt (hiff.mp hn)
    have hd := blend_divisors_of_gt u a hgt'
    rw [hb] at hd
    simp at hd
  · intro hle
    exact blend_of_not_gt u a (hiff.mpr hle)
  · rintro ⟨_, hle⟩
    have hb := blend_of_not_gt u a (hiff.mpr hle)
    exact ⟨by rw [bone_transform, hb], by rw [hb]⟩

/-- C14 at a weight sum of 0.002, all of it on bone 3: the shader's `bone_transform` is the
identity, while the blend normalized by the weight sum is the matrix of bone 3, four times
the identity. -/
theorem identity_fallback_iff_witness :
    (0.001 < weightSum faintVertex.in_bone_weight ∧ weightSum faintVertex.in_bone_weight ≤ 0.004) ∧
      (bone_transform sampleUniforms faintVertex = 1 ∧
        (blend sampleUniforms faintVertex).divisors = []) ∧
      normalizedBlend sampleUniforms faintVertex 0 0 = 4 :=
  have hrange : 0.001 < weightSum faintVertex.in_bone_weight ∧
      weightSum faintVertex.in_bone_weight ≤ 0.004 := by
    constructor <;> norm_num [weightSum, faintVertex]
  ⟨hrange, (identity_fallback_iff sampleUniforms faintVertex).2 hrange, by
    simp [normalizedBlend, Fin.sum_univ_four, sampleUniforms, faintVertex, sampleVertex, weightSum,
      Matrix.sum_apply]
    norm_num⟩

/-- C15: multiplying the four weights by any `k > 0` leaves the shader's `bone_transform`
unchanged, provided both `sum(w) / 4` and `k * sum(w) / 4` are above 1e-3. -/
theorem bone_transform_scale_invariant (u : Uniforms) (a : VertexIn) (k : ℚ) (hk : k > 0)
    (h1 : weightSum a.in_bone_weight / 4 > 1e-3)
    (h2 : k * weightSum a.in_bone_weight / 4 > 1e-3) :
    bone_transform u (scaleWeights k a) = bone_transform u a := by
  have hs : weightSum (scaleWeights k a).in_bone_weight = k * weightSum a.in_bone_weight := by
    simp only [scaleWeights, weightSum]
    ring
  have hg1 : adjust_factor a.in_bone_weight > 1e-3 := by rw [adjust_factor_eq]; exact h1
  have hg2 : adjust_factor (scaleWeights k a).in_bone_weight > 1e-3 := by
    rw [adjust_factor_eq, hs]; exact h2
  rw [bone_transform_of_gt u a hg1, bone_transform_of_gt u _ hg2, hs]
  refine Finset.sum_congr rfl (fun i _ => ?_)
  have hne : weightSum a.in_bone_weight ≠ 0 := by
    intro h0
    rw [h0] at h1
    norm_num at h1
  have hk0 : k ≠ 0 := ne_of_gt hk
  have hc : (scaleWeights k a).in_bone_weight i / (k * weightSum a.in_bone_weight / 4) =
      a.in_bone_weight i / (weightSum a.in_bone_weight / 4) := by
    simp only [scaleWeights]
    field_simp
    ring
  rw [hc]
  rfl

/-- C15 at the weights (0.3, 0.3, 0.3, 0.0) doubled to (0.6, 0.6, 0.6, 0.0). -/
theorem bone_transform_scale_invariant_witness :
    (2 : ℚ) > 0 ∧ weightSum sampleVertex.in_bone_weight / 4 > 1e-3 ∧
      2 * weightSum sampleVertex.in_bone_weight / 4 > 1e-3 ∧
      bone_transform sampleUniforms (scaleWeights 2 sampleVertex) =
        bone_transform sampleUniforms sampleVertex :=
  ⟨by norm_num, by norm_num [weightSum, sampleVertex], by norm_num [weightSum, sampleVertex],
    bone_transform_scale_invariant sampleUniforms sampleVertex 2 (by norm_num)
      (by norm_num [weightSum, sampleVertex]) (by norm_num [weightSum, sampleVertex])⟩

end SkeletalAnimation

namespace Hand

open SkeletalAnimation (Mat4 Vec3)
open SkeletalMesh (SkeletonModifier)

theorem resetFingers_of_mem (m : SkeletonModifier) (n : String) (hn : n ∈ fingerBones) :
    resetFingers m n = some (1 : Mat4) := by
  simp only [fingerBones, List.mem_cons, List.mem_singleton, List.not_mem_nil, or_false] at hn
  rcases hn with rfl | rfl | rfl | rfl | rfl | rfl | rfl | rfl | rfl | rfl | rfl | rfl | rfl |
    rfl | rfl <;> simp [resetFingers, set_apply, identity]

theorem resetFingers_of_not_mem (m : SkeletonModifier) (n : String) (hn : n ∉ fingerBones) :
    resetFingers m n = m n := by
  simp only [fingerBones, List.mem_cons, List.mem_singleton, List.not_mem_nil, or_false,
    not_or] at hn
  obtain ⟨h1, h2, h3, h4, h5, h6, h7, h8, h9, h10, h11, h12, h13, h14, h15⟩ := hn
  simp only [resetFingers, set_apply, if_neg h1, if_neg h2, if_neg h3, if_neg h4, if_neg h5,
    if_neg h6, if_neg h7, if_neg h8, if_neg h9, if_neg h10, if_neg h11, if_neg h12, if_neg h13,
    if_neg h14, if_neg h15]

/-- C16: after `resetFingers`, whatever the map held before, each of the 15 finger bones
maps to the identity matrix; applying `resetFingers` twice gives the same map as applying
it once. -/
theorem resetFingers_straightens (m : SkeletonModifier) :
    (∀ n ∈ fingerBones, resetFingers m n = some (1 : Mat4)) ∧
      resetFingers (resetFingers m) = resetFingers m := by
  refine ⟨fun n hn => resetFingers_of_mem m n hn, ?_⟩
  funext n
  by_cases hn : n ∈ fingerBones
  · rw [resetFingers_of_mem _ n hn, resetFingers_of_mem _ n hn]
  · rw [resetFingers_of_not_mem _ n hn]

/-- C16 on a map in which the middle finger is bent. -/
theorem resetFingers_straightens_witness :
    "middle_proximal_phalange" ∈ fingerBones ∧
      staleModifier "middle_proximal_phalange" = some SkeletalMesh.quarterTurnZ ∧
      resetFingers staleModifier "middle_proximal_phalange" = some (1 : Mat4) ∧
      resetFingers (resetFingers staleModifier) = resetFingers staleModifier :=
  ⟨by simp [fingerBones], by simp [staleModifier, SkeletonModifier.set],
    (resetFingers_straightens staleModifier).1 "middle_proximal_phalange" (by simp [fingerBones]),
    (resetFingers_straightens staleModifier).2⟩

theorem metacarpals_action10 (lib : Lib) (t : ℚ) (m : SkeletonModifier) :
    action10 lib t m "metacarpals" = m "metacarpals" := by
  simp only [action10, set_apply, ite_apply]
  simp

theorem metacarpals_action5 (m : SkeletonModifier) :
    action5 m "metacarpals" = m "metacarpals" := by
  simp [action5, set_apply]

theorem metacarpals_onAction (current_action k : Int)
    (block : SkeletonModifier → SkeletonModifier)
    (hb : ∀ m, block m "metacarpals" = m "metacarpals") (m : SkeletonModifier) :
    onAction current_action k block m "metacarpals" = m "metacarpals" := by
  unfold onAction
  split
  · exact hb m
  · rfl

theorem metacarpals_action0 (lib : Lib) (m : SkeletonModifier) :
    action0 lib m "metacarpals" = m "metacarpals" := by
  simp [action0, set_apply]

theorem metacarpals_action1 (lib : Lib) (m : SkeletonModifier) :
    action1 lib m "metacarpals" = m "metacarpals" := by
  simp [action1, set_apply]

theorem metacarpals_action2 (lib : Lib) (m : SkeletonModifier) :
    action2 lib m "metacarpals" = m "metacarpals" := by
  simp [action2, set_apply]

theorem metacarpals_action3 (lib : Lib) (m : SkeletonModifier) :
    action3 lib m "metacarpals" = m "metacarpals" := by
  simp [action3, set_apply]

theorem metacarpals_action4 (lib : Lib) (m : SkeletonModifier) :
    action4 lib m "metacarpals" = m "metacarpals" := by
  simp [action4, set_apply]

theorem metacarpals_action6 (lib : Lib) (m : SkeletonModifier) :
    action6 lib m "metacarpals" = m "metacarpals" := by
  simp [action6, set_apply]

theorem metacarpals_action7 (lib : Lib) (m : SkeletonModifier) :
    action7 lib m "metacarpals" = m "metacarpals" := by
  simp [action7, set_apply]

theorem metacarpals_action8 (lib : Lib) (m : SkeletonModifier) :
    action8 lib m "metacarpals" = m "metacarpals" := by
  simp [action8, set_apply]

theorem metacarpals_action9 (lib : Lib) (m : SkeletonModifier) :
    action9 lib m "metacarpals" = m "metacarpals" := by
  simp [action9, set_apply]

theorem poseUpdate_metacarpals (lib : Lib) (current_action : Int) (passed_time : ℚ)
    (m : SkeletonModifier) (h : current_action ≠ 11) :
    poseUpdate lib current_action passed_time m "metacarpals" =
      some (lib.rotate identity (metacarpals_angle passed_time) (fvec3 1.0 0.0 0.0)) := by
  rw [poseUpdate_eq]
  have h11 : ∀ m' : SkeletonModifier,
      onAction current_action 11 (action11 lib passed_time) m' = m' := by
    intro m'
    unfold onAction
    rw [if_neg h]
  rw [h11]
  rw [metacarpals_onAction _ _ _ (metacarpals_action9 lib),
    metacarpals_onAction _ _ _ (metacarpals_action8 lib),
    metacarpals_onAction _ _ _ (metacarpals_action7 lib),
    metacarpals_onAction _ _ _ (metacarpals_action6 lib),
    metacarpals_onAction _ _ _ metacarpals_action5,
    metacarpals_onAction _ _ _ (metacarpals_action4 lib),
    metacarpals_onAction _ _ _ (metacarpals_action3 lib),
    metacarpals_onAction _ _ _ (metacarpals_action2 lib),
    metacarpals_onAction _ _ _ (metacarpals_action1 lib),
    metacarpals_onAction _ _ _ (metacarpals_action0 lib),
    metacarpals_onAction _ _ _ (metacarpals_action10 lib passed_time)]
  simp [set_apply]

theorem M_PI_lt_two_pi : ((M_PI : ℚ) : ℝ) < 2 * Real.pi := by
  have hpi := Real.pi_gt_d6
  have hq : (M_PI : ℚ) < 16 / 5 := by norm_num [M_PI]
  have hM : ((M_PI : ℚ) : ℝ) < ((16 / 5 : ℚ) : ℝ) := Rat.cast_lt.mpr hq
  push_cast at hM
  norm_num at hpi
  linarith

/-- C17 (what the code does): in every frame with `current_action` different from 11 the
metacarpals override is `glm::rotate(identity, passed_time * (M_PI / 4), (1, 0, 0))`, a
rotation about the X axis; over 4 seconds of `passed_time` its angle advances by `M_PI`,
half a turn and less than `2 * pi`, and it advances by `2 * M_PI` only over 8 seconds. -/
theorem metacarpals_half_turn_in_four_seconds (lib : Lib) (current_action : Int)
    (passed_time : ℚ) (m : SkeletonModifier) (h : current_action ≠ 11) :
    poseUpdate lib current_action passed_time m "metacarpals" =
        some (lib.rotate identity (passed_time * (M_PI / 4)) (fvec3 1 0 0)) ∧
      metacarpals_angle (passed_time + 4) - metacarpals_angle passed_time = M_PI ∧
      metacarpals_angle (passed_time + 4) - metacarpals_angle passed_time ≠ 2 * M_PI ∧
      ((metacarpals_angle (passed_time + 4) - metacarpals_angle passed_time : ℚ) : ℝ)
        < 2 * Real.pi ∧
      metacarpals_angle (passed_time + 8) - metacarpals_angle passed_time = 2 * M_PI := by
  have h4 : metacarpals_angle (passed_time + 4) - metacarpals_angle passed_time = M_PI := by
    simp only [metacarpals_angle]
    norm_num
    ring
  refine ⟨?_, h4, ?_, ?_, ?_⟩
  · rw [poseUpdate_metacarpals lib current_action passed_time m h]
    simp only [metacarpals_angle]
    norm_num
  · rw [h4]
    norm_num [M_PI]
  · rw [h4]
    exact M_PI_lt_two_pi
  · simp only [metacarpals_angle]
    norm_num
    ring

/-- C17 at the default action 10, between `passed_time` 0 and 4. -/
theorem metacarpals_half_turn_in_four_seconds_witness :
    (10 : Int) ≠ 11 ∧
      poseUpdate sampleLib 10 0 SkeletonModifier.empty "metacarpals" =
        some (sampleLib.rotate identity (0 * (M_PI / 4)) (fvec3 1 0 0)) ∧
      metacarpals_angle (0 + 4) - metacarpals_angle 0 = M_PI ∧
      metacarpals_angle (0 + 4) - metacarpals_angle 0 ≠ 2 * M_PI :=
  ⟨by decide,
    (metacarpals_half_turn_in_four_seconds sampleLib 10 0 SkeletonModifier.empty (by decide)).1,
    (metacarpals_half_turn_in_four_seconds sampleLib 10 0 SkeletonModifier.empty (by decide)).2.1,
    (metacarpals_half_turn_in_four_seconds sampleLib 10 0 SkeletonModifier.empty
      (by decide)).2.2.1⟩

end Hand

namespace TextureImage

/-- C11: `unloadTexture(name)` returns true if and only if `name` was registered before the
call; after the call `getTexture(name)` returns the error texture, and every other
registered name still maps to the same texture object, itself unchanged. -/
theorem unloadTexture_erases (s : Store) (_name : String) :
    ((unloadTexture s _name).1 = true ↔ ∃ r, s.allTexture _name = some r) ∧
      (getTexture (unloadTexture s _name).2 _name).1 = TexRef.error ∧
      ∀ k r, k ≠ _name → s.allTexture k = some r →
        (unloadTexture s _name).2.allTexture k = some r ∧
          (getTexture (unloadTexture s _name).2 k).1 = (getTexture s k).1 ∧
          (unloadTexture s _name).2.deref r = s.deref r := by
  refine ⟨?_, ?_, ?_⟩
  · simp only [unloadTexture, Option.isSome_iff_exists]
  · simp [unloadTexture, getTexture]
  · intro k r hk hr
    have hmap : (unloadTexture s _name).2.allTexture k = some r := by
      simp only [unloadTexture, if_neg hk]
      exact hr
    refine ⟨hmap, ?_, ?_⟩
    · simp only [getTexture, hmap, hr]
    · cases r <;> rfl

/-- C11 in the state after "hand" was loaded: unloading "hand" returns true and leaves
`getTexture("hand")` at the error texture; unloading the unregistered "foot" returns false
and leaves "hand" registered to the same object. -/
theorem unloadTexture_erases_witness :
    ((unloadTexture loadedStore "hand").1 = true ∧
        (getTexture (unloadTexture loadedStore "hand").2 "hand").1 = TexRef.error) ∧
      ((unloadTexture loadedStore "foot").1 = false ∧
        (unloadTexture loadedStore "foot").2.allTexture "hand" = some (TexRef.heap 0)) :=
  ⟨⟨(unloadTexture_erases loadedStore "hand").1.mpr ⟨_, loadedStore_hand⟩,
      (unloadTexture_erases loadedStore "hand").2.1⟩,
    ⟨(by
        rw [Bool.eq_false_iff]
        intro h
        obtain ⟨r, hr⟩ := (unloadTexture_erases loadedStore "foot").1.mp h
        rw [loadedStore_foot] at hr
        cases hr),
      ((unloadTexture_erases loadedStore "foot").2.2 "hand" (TexRef.heap 0) (by decide)
        loadedStore_hand).1⟩⟩

/-- C12: `bind` returns true if and only if the texture is available; in every state
reachable through `loadTexture`, `unloadTexture`, `getTexture` and `clear` the static error
texture is unavailable, so `bind` on it returns false. -/
theorem bind_true_iff_available (s : Store) (hs : Reachable s) (r : TexRef)
    (textureChannel : Nat) (gl : GLState) :
    ((bind s r textureChannel gl).1 = true ↔ (s.deref r).available = true) ∧
      s.error.available = false ∧
      (bind s TexRef.error textureChannel gl).1 = false := by
  have herr := (wellFormed_of_reachable s hs).2
  refine ⟨by rw [bind_fst], herr, ?_⟩
  rw [bind_fst]
  exact herr

/-- C12 in the state after "hand" was loaded and `clear` was called on the error texture:
the loaded texture binds, the error texture does not. -/
theorem bind_true_iff_available_witness :
    Reachable (clear loadedStore TexRef.error) ∧
      ((bind (clear loadedStore TexRef.error) (TexRef.heap 0) 0
            { activeTexture := GL_TEXTURE0, texture2D := fun _ => 0 }).1 = true ↔
          ((clear loadedStore TexRef.error).deref (TexRef.heap 0)).available = true) ∧
      (clear loadedStore TexRef.error).error.available = false ∧
      (bind (clear loadedStore TexRef.error) TexRef.error 0
        { activeTexture := GL_TEXTURE0, texture2D := fun _ => 0 }).1 = false :=
  have hr : Reachable (clear loadedStore TexRef.error) :=
    Reachable.clear _ _ (Reachable.loadTexture sampleEnv Store.init "hand" "" Reachable.init)
  ⟨hr, bind_true_iff_available _ hr (TexRef.heap 0) 0 _⟩

end TextureImage
